import Mathlib

/-!
# MASH world runtime: a shallow embedding

This file embeds the core of the MASH world server (a TypeScript MUD-like
server) in Lean 4: the entity store, the permission and containment module
(`src/engine/permissions.ts`), the Interaction DSL evaluator
(`src/engine/interactions.ts`), the queued action handlers (`src/queued.ts`),
the response envelope and event bus (`src/response.ts`), home-node machinery
(`src/home.ts`), the free `buy_ap` handler (`src/actions.ts`) and the tick
engine (`src/engine/tick.ts`).

Conventions of the embedding:

* The SQLite store is modelled as lists of records inside a `World` structure.
  `SELECT ... WHERE id = ?` with `.get` is `List.find?`; `UPDATE ... WHERE id = ?`
  maps over all rows with a matching id (SQL semantics); `INSERT` appends
  (rowid order); `ORDER BY` sorts with `List.insertionSort` (stable, like
  SQLite's sorter on our keys); `ORDER BY RANDOM()` is a caller-supplied
  permutation.
* JSON columns (`fields`, `permissions`, `interactions`, event `data`,
  queue `params`) are stored in structured form; `JSON.parse`/`JSON.stringify`
  round-trips are the identity and are elided.
* `nanoid()` is modelled by a counter-backed id supply (`World.nextGen`);
  `Date.now()` is an explicit `now : Nat` argument.
* The repository's `config.ts` is not part of the provided sources; its
  constants are modelled from the spec (`MAX_AP = 4`, `MAX_BUY_AP_PER_TICK = 20`,
  `MAX_INTERACTIONS_PER_TICK = 4`, `MAX_CONTAINMENT_DEPTH = 5`,
  `MAX_EVENTS_PER_RESPONSE = 200`, `TICK_INTERVAL_MS = 10000`).
  Likewise the agent columns `purchased_ap_this_tick` and `last_active_at`
  used by `actions.ts`, `response.ts` and `tick.ts` are modelled from the
  spec's data model (the provided `db.ts` snapshot predates them).
* Functions whose TypeScript original recurses through the store along
  container edges (`getContainingNode`, `getCarrierAgent`,
  `isInAgentInventory`, `handleVoidCascade`) take explicit fuel; call sites
  pass `w.instances.length + 1`, which is exhaustive whenever the walk
  terminates in the original.
-/

namespace MASH

/-- Constants. Modelled from the spec: `config.ts` is not among the provided
source files; values are those stated in the spec (§4, §5) and `API.md`. -/
def MAX_AP : Int := 4
def MAX_BUY_AP_PER_TICK : Int := 20
def MAX_INTERACTIONS_PER_TICK : Nat := 4
def MAX_CONTAINMENT_DEPTH : Nat := 5
def MAX_EVENTS_PER_RESPONSE : Nat := 200
def TICK_INTERVAL_MS : Nat := 10000
def IDLE_TIMEOUT_MS : Nat := 600000
def EVENT_UNDELIVERED_TTL_MS : Nat := 3600000
def LINK_INDEX_LIMIT : Nat := 20

/-- JSON values, as stored in `fields` maps, event `data` and handler
results. Numbers are modelled as integers. -/
inductive Value where
  | null : Value
  | bool (b : Bool) : Value
  | num (n : Int) : Value
  | str (s : String) : Value
  | arr (elems : List Value) : Value
  | obj (fields : List (String × Value)) : Value

/-- JS truthiness test used by guards such as `if (!fromId) return`. -/
def Value.truthy : Value → Bool
  | .null => false
  | .bool b => b
  | .num n => n != 0
  | .str s => s != ""
  | .arr _ => true
  | .obj _ => true

mutual
/-- JS `String(v)` coercion, as used by `setRef` on descriptions and by
`interpolate`. Arrays join their elements with commas; objects print as
`[object Object]`; float formatting is not modelled (numbers are integers). -/
def Value.jsString : Value → String
  | .null => "null"
  | .bool b => if b then "true" else "false"
  | .num n => toString n
  | .str s => s
  | .arr l => String.intercalate "," (jsStringList l)
  | .obj _ => "[object Object]"

def jsStringList : List Value → List String
  | [] => []
  | v :: t => Value.jsString v :: jsStringList t
end

/-- JS `===` on JSON values: structural on scalars, reference equality
(hence `false`) between distinct array/object values. -/
def Value.seq : Value → Value → Bool
  | .null, .null => true
  | .bool a, .bool b => a == b
  | .num a, .num b => a == b
  | .str a, .str b => a == b
  | _, _ => false

/-- JS `Number(v)` coercion, partially modelled: `none` stands for `NaN`.
Numeric-string parsing covers integer literals only; the single-element
array quirk is not modelled. -/
def Value.toNumber : Value → Option Int
  | .null => some 0
  | .bool b => some (if b then 1 else 0)
  | .num n => some n
  | .str s => s.toInt?
  | .arr _ => none
  | .obj _ => none

/-- JSON object field lookup (`o[field]`); `none` is JS `undefined`. -/
def getF (o : List (String × Value)) (k : String) : Option Value :=
  (o.find? fun p => p.1 == k).map Prod.snd

/-- JSON object field assignment (`o[field] = v`): replaces the existing
entry or appends. -/
def setF (o : List (String × Value)) (k : String) (v : Value) : List (String × Value) :=
  if (o.find? fun p => p.1 == k).isSome then
    o.map fun p => if p.1 == k then (k, v) else p
  else
    o ++ [(k, v)]

/-- JS object spread merge (`{...base, ...upd}`). -/
def mergeF (base upd : List (String × Value)) : List (String × Value) :=
  upd.foldl (fun acc p => setF acc p.1 p.2) base

/-- A permission rule: one of `"any"`, `"none"`, `"owner"`, `"node"`,
`["list", [username, ...]]`, or any other JSON value (written unvalidated
by the DSL `perm` effect; `evaluateRule` treats it as no access). -/
inductive RuleV where
  | anyR : RuleV
  | noneR : RuleV
  | ownerR : RuleV
  | nodeR : RuleV
  | listR (usernames : List String) : RuleV
  | otherR (v : Value) : RuleV

/-- A sparse permissions map, keyed by permission-key strings
(`inspect`, `edit`, `delete`, `interact`, `contain`, `perms`, or anything
the DSL writes). -/
abbrev Perms := List (String × RuleV)

def getPerm (p : Perms) (k : String) : Option RuleV :=
  (p.find? fun q => q.1 == k).map Prod.snd

def setPerm (p : Perms) (k : String) (v : RuleV) : Perms :=
  if (p.find? fun q => q.1 == k).isSome then
    p.map fun q => if q.1 == k then (k, v) else q
  else
    p ++ [(k, v)]

/-- JS object spread merge on permissions maps. -/
def mergePerms (base upd : Perms) : Perms :=
  upd.foldl (fun acc q => setPerm acc q.1 q.2) base

/-! ## Interaction DSL syntax (`src/types.ts`) -/

/-- A DSL condition tuple. -/
inductive Cond where
  | eqC (ref : String) (lit : Value)
  | neqC (ref : String) (lit : Value)
  | gtC (ref : String) (lit : Value)
  | ltC (ref : String) (lit : Value)
  | hasC (ref : String) (templateId : String)
  | notC (c : Cond)

/-- A primitive DSL effect tuple. The `add` amount may be a number or a
reference string, so it is kept as a raw `Value`; the `perm` value is any
JSON value, parsed to `RuleV` (with `otherR` for non-rule shapes). -/
inductive EffectV where
  | setE (ref : String) (value : Value)
  | addE (ref : String) (amount : Value)
  | sayE (text : String)
  | takeE (templateId : String) (fromRef : String)
  | giveE (templateId : String) (toRef : String)
  | moveE (ref : String) (destRef : String)
  | createE (templateId : String) (atRef : String)
  | destroyE (ref : String)
  | permE (ref : String) (permKey : String) (value : RuleV)
  | denyE

/-- An effect entry: a primitive effect or a nested conditional block. -/
inductive EffectEntry where
  | eff (e : EffectV)
  | block (cond : Option (List Cond)) (doL : List EffectEntry)
      (elseL : Option (List EffectEntry))

/-- One interaction rule `{on, if?, do, else?}`; the field `on` is spelled
`onV` because `on` is a reserved word in Lean. -/
structure InteractionR where
  onV : String
  iff : Option (List Cond) := none
  doL : List EffectEntry := []
  elseL : Option (List EffectEntry) := none

/-! ## Entity rows and the store -/

/-- Agent row. The columns `purchased_ap_this_tick` and `last_active_at`
are modelled from the spec's data model (§3): they are read and written by
`actions.ts`, `response.ts` and `tick.ts` but missing from the provided
`db.ts` schema snapshot. -/
structure AgentR where
  id : String
  username : String
  token : Option String := none
  current_node_id : Option String := none
  short_description : String := ""
  long_description : String := ""
  see_broadcasts : Bool := true
  perception_max_agents : Nat := 10
  perception_max_links : Nat := 10
  perception_max_things : Nat := 10
  home_node_id : String
  ap : Int := 4
  purchased_ap_this_tick : Int := 0
  last_active_at : Nat := 0
  created_at : Nat := 0

structure TemplateR where
  id : String
  owner_id : String
  name : String := ""
  type : String
  short_description : String := ""
  long_description : String := ""
  fields : List (String × Value) := []
  default_permissions : Perms := []
  interactions : List InteractionR := []
  created_at : Nat := 0

structure InstanceR where
  id : String
  template_id : Option String := none
  type : String
  short_description : String := ""
  long_description : String := ""
  fields : List (String × Value) := []
  permissions : Perms := []
  container_type : Option String := none
  container_id : Option String := none
  is_void : Bool := false
  is_destroyed : Bool := false
  system_type : Option String := none
  interactions_used_this_tick : Nat := 0
  created_at : Nat := 0

structure EventR where
  id : Nat
  agent_id : String
  type : String
  data : Value
  created_at : Nat

structure LinkUsageR where
  id : Nat
  agent_id : String
  link_id : String
  destination_id : String
  destination_name : String
  used_at : Nat

/-- Queue `params`: the parsed JSON request body stored with a queue entry,
flattened over the keys the handlers read (the nested `changes` object of
`edit` is flattened to `changes_*`, with `changes_present` recording whether
the `changes` key existed). -/
structure ParamsR where
  type_ : Option String := none
  name : Option String := none
  template_type : Option String := none
  short_description : Option String := none
  long_description : Option String := none
  fields : Option (List (String × Value)) := none
  default_permissions : Option Perms := none
  interactions : Option (List InteractionR) := none
  template_id : Option String := none
  container_id : Option String := none
  target_type : Option String := none
  target_id : Option String := none
  changes_name : Option String := none
  changes_short_description : Option String := none
  changes_long_description : Option String := none
  changes_fields : Option (List (String × Value)) := none
  changes_default_permissions : Option Perms := none
  changes_interactions : Option (List InteractionR) := none
  changes_permissions : Option Perms := none
  changes_present : Bool := false
  via : Option (List String) := none
  via_is_array : Bool := true
  into : Option String := none
  subject_id : Option String := none
  count : Option Value := none

structure QueueEntryR where
  id : Nat
  agent_id : String
  action : String
  params : ParamsR
  tick_number : Nat
  created_at : Nat

/-- The whole store plus the world-state key-value rows and the id supplies
backing `AUTOINCREMENT` and `nanoid()`. -/
structure World where
  agents : List AgentR := []
  templates : List TemplateR := []
  instances : List InstanceR := []
  events : List EventR := []
  nextEventId : Nat := 1
  actionQueue : List QueueEntryR := []
  nextActionId : Nat := 1
  linkUsage : List LinkUsageR := []
  nextLinkUsageId : Nat := 1
  tickNumber : Nat := 0
  lastTickAt : Nat := 0
  nextGen : Nat := 0

/-- `nanoid()`: draw a fresh id from the supply. -/
def genId (n : Nat) : String := "gen" ++ toString n

def World.findAgent (w : World) (id : String) : Option AgentR :=
  w.agents.find? fun a => a.id == id

def World.findAgentByUsername (w : World) (u : String) : Option AgentR :=
  w.agents.find? fun a => a.username == u

def World.findTemplate (w : World) (id : String) : Option TemplateR :=
  w.templates.find? fun t => t.id == id

def World.findInstance (w : World) (id : String) : Option InstanceR :=
  w.instances.find? fun i => i.id == id

/-- `UPDATE instances SET ... WHERE id = ?`. -/
def World.updInstance (w : World) (id : String) (f : InstanceR → InstanceR) : World :=
  { w with instances := w.instances.map fun i => if i.id == id then f i else i }

/-- `UPDATE agents SET ... WHERE id = ?`. -/
def World.updAgent (w : World) (id : String) (f : AgentR → AgentR) : World :=
  { w with agents := w.agents.map fun a => if a.id == id then f a else a }

/-- `UPDATE templates SET ... WHERE id = ?`. -/
def World.updTemplate (w : World) (id : String) (f : TemplateR → TemplateR) : World :=
  { w with templates := w.templates.map fun t => if t.id == id then f t else t }

/-! ## `src/engine/permissions.ts` -/

/-- `getInstancePermission`: instance override, else template default,
else `"owner"`. -/
def getInstancePermission (w : World) (inst : InstanceR) (key : String) : RuleV :=
  match getPerm inst.permissions key with
  | some r => r
  | none =>
    match inst.template_id with
    | some tid =>
      match w.findTemplate tid with
      | some t =>
        match getPerm t.default_permissions key with
        | some r => r
        | none => .ownerR
      | none => .ownerR
    | none => .ownerR

/-- `getTemplateOwner`. -/
def getTemplateOwner (w : World) (inst : InstanceR) : Option String :=
  match inst.template_id with
  | none => none
  | some tid => (w.findTemplate tid).map fun t => t.owner_id

/-- The guard `container_type === "instance" && container_id` used by the
source's upward container walks: the parent instance id when the guard
passes (an empty id is falsy in JS and fails the guard). -/
def instParentId (i : InstanceR) : Option String :=
  if i.container_type == some "instance" then
    match i.container_id with
    | some cid => if cid == "" then none else some cid
    | none => none
  else none

/-- `getContainingNode`: walk container edges upward to the enclosing node
(a node is its own containing node). `fuel` bounds the walk; call sites pass
`w.instances.length + 1`, enough whenever the original terminates. -/
def getContainingNode (w : World) : Nat → InstanceR → Option String
  | 0, _ => none
  | fuel + 1, inst =>
    if inst.type == "node" then some inst.id
    else
      match instParentId inst with
      | some cid =>
        match w.findInstance cid with
        | some container => getContainingNode w fuel container
        | none => none
      | none => none

/-- `evaluateRule` against a present agent. -/
def evaluateRule (w : World) (rule : RuleV) (agent : AgentR) (inst : InstanceR) : Bool :=
  match rule with
  | .anyR => true
  | .noneR => false
  | .ownerR => getTemplateOwner w inst == some agent.id
  | .nodeR =>
    let nodeId := getContainingNode w (w.instances.length + 1) inst
    nodeId.isSome && agent.current_node_id == nodeId
  | .listR usernames => usernames.contains agent.username
  | .otherR _ => false

/-- `evaluateRule` as invoked with `agent === undefined`
(`getRandomDestination` is called with a single argument at
`queued.ts:269`): dereferencing the absent agent throws a `TypeError`,
modelled as `Except.error ()`. -/
def evaluateRuleNoAgent (rule : RuleV) : Except Unit Bool :=
  match rule with
  | .anyR => .ok true
  | .noneR => .ok false
  | .ownerR => .error ()
  | .nodeR => .error ()
  | .listR _ => .error ()
  | .otherR _ => .ok false

/-- `checkPermission`. -/
def checkPermission (w : World) (agent : AgentR) (inst : InstanceR) (key : String) : Bool :=
  evaluateRule w (getInstancePermission w inst key) agent inst

/-- `checkContainmentDepth`: bounded upward walk from a candidate container;
structurally bounded by `MAX_CONTAINMENT_DEPTH - currentDepth`. -/
def checkContainmentDepthAux (w : World) : Nat → String → Bool
  | 0, _ => false
  | remaining + 1, containerId =>
    match w.findInstance containerId with
    | none => true
    | some container =>
      match instParentId container with
      | some cid => checkContainmentDepthAux w remaining cid
      | none => true

/-- `checkContainmentDepth(containerId)` with default `currentDepth = 0`. -/
def checkContainmentDepth (w : World) (containerId : String) : Bool :=
  checkContainmentDepthAux w MAX_CONTAINMENT_DEPTH containerId

/-- `canEscalatePermission`: the owner can only grant a permission they
themselves hold on the target. (Exported by the source but never called.) -/
def canEscalatePermission (w : World) (ownerAgent : AgentR) (targetInstance : InstanceR)
    (permKey : String) : Bool :=
  checkPermission w ownerAgent targetInstance permKey

end MASH

namespace MASH

/-! ## `src/response.ts` -/

/-- `addEvent`: insert an event row (ordinal from the autoincrement supply). -/
def addEvent (w : World) (now : Nat) (agentId type_ : String) (data : Value) : World :=
  { w with
    events := w.events ++ [⟨w.nextEventId, agentId, type_, data, now⟩],
    nextEventId := w.nextEventId + 1 }

/-- `broadcastToNode`: one event row per agent currently in the node with
`see_broadcasts` set, excluding `excludeAgentId` when given. -/
def broadcastToNode (w : World) (now : Nat) (nodeId type_ : String) (data : Value)
    (excludeAgentId : Option String) : World :=
  (w.agents.filter fun a => a.current_node_id == some nodeId && a.see_broadcasts).foldl
    (fun acc a =>
      if excludeAgentId != some a.id then addEvent acc now a.id type_ data else acc)
    w

/-- The event selection of `buildResponse`:
`SELECT * FROM events WHERE agent_id = ? ORDER BY id LIMIT 200`. -/
def selectEvents (w : World) (agentId : String) : List EventR :=
  (List.insertionSort (fun a b => a.id ≤ b.id) (w.events.filter fun e => e.agent_id == agentId)).take
    MAX_EVENTS_PER_RESPONSE

/-- The envelope `info` block (events mapped to `{type, data, created_at}`,
kept here as full rows for the statement of event-destructiveness). -/
structure Envelope where
  tick : Nat
  next_tick_in_ms : Int
  ap : Int
  purchased_ap_this_tick : Int
  events : List EventR

/-- `buildResponse`: destructive event read plus AP refresh. Returns the
updated world and the envelope; `none` models the `TypeError` thrown when
the agent row is missing (which happens after the destructive delete). -/
def buildResponse (w : World) (now : Nat) (agent : AgentR) : World × Option Envelope :=
  let nextTickInMs : Int := max 0 ((w.lastTickAt : Int) + (TICK_INTERVAL_MS : Int) - (now : Int))
  let events := selectEvents w agent.id
  let w' :=
    match events.getLast? with
    | none => w
    | some lastEv =>
      { w with events := w.events.filter fun e => !(e.agent_id == agent.id && e.id ≤ lastEv.id) }
  match w'.findAgent agent.id with
  | none => (w', none)
  | some fresh =>
    (w', some { tick := w.tickNumber, next_tick_in_ms := nextTickInMs, ap := fresh.ap,
                purchased_ap_this_tick := fresh.purchased_ap_this_tick, events := events })

/-! ## `src/home.ts` -/

/-- An apostrophe (kept out of string literals). -/
def apoS : String := String.mk [Char.ofNat 39]

/-- The home-node permission set built at signup. -/
def homePerms (username : String) : Perms :=
  [("inspect", .anyR), ("interact", .listR [username]), ("edit", .listR [username]),
   ("delete", .noneR), ("contain", .listR [username]), ("perms", .listR [username])]

/-- `createHomeNode`: home node plus the two templateless system instances
(`random_link` link, `link_index` thing). Returns the home node id. -/
def createHomeNode (w : World) (now : Nat) (_agentId username : String) : World × String :=
  let homeNodeId := genId w.nextGen
  let randomLinkId := genId (w.nextGen + 1)
  let linkIndexId := genId (w.nextGen + 2)
  let perms := homePerms username
  let home : InstanceR :=
    { id := homeNodeId, template_id := none, type := "node",
      short_description := username ++ apoS ++ "s home",
      long_description := "A personal home node belonging to " ++ username ++
        ". It feels quiet and safe here.",
      fields := [], permissions := perms, container_type := none, container_id := none,
      is_void := false, is_destroyed := false, system_type := none,
      interactions_used_this_tick := 0, created_at := now }
  let randomLink : InstanceR :=
    { id := randomLinkId, template_id := none, type := "link",
      short_description := "a shimmering portal",
      long_description := "A shimmering portal that leads to a random place in the world.",
      fields := [], permissions := perms, container_type := some "instance",
      container_id := some homeNodeId, is_void := false, is_destroyed := false,
      system_type := some "random_link", interactions_used_this_tick := 0, created_at := now }
  let linkIndex : InstanceR :=
    { id := linkIndexId, template_id := none, type := "thing",
      short_description := "a glowing directory",
      long_description := "A directory of recently visited links. Look at it to see where you have been.",
      fields := [], permissions := perms, container_type := some "instance",
      container_id := some homeNodeId, is_void := false, is_destroyed := false,
      system_type := some "link_index", interactions_used_this_tick := 0, created_at := now }
  ({ w with instances := w.instances ++ [home, randomLink, linkIndex], nextGen := w.nextGen + 3 },
   homeNodeId)

/-- The SQL candidate filter of `getRandomDestination`: nodes that are
non-void, non-destroyed, not the excluded node and not any agent's home.
An absent (`NULL`) exclude id makes the `id != ?` comparison `NULL`,
excluding every row. -/
def randomCandidates (w : World) (excludeNodeId : Option String) : List InstanceR :=
  w.instances.filter fun i =>
    i.type == "node" && !i.is_void && !i.is_destroyed &&
    (match excludeNodeId with
     | some e => i.id != e
     | none => false) &&
    !((w.agents.map fun a => a.home_node_id).contains i.id)

/-- `getRandomDestination`, as invoked at its only call site
(`queued.ts:269`) with the `agent` parameter missing: the per-candidate
entry-permission filter evaluates the rule against `undefined`, so a rule
other than `"any"`/`"none"` (or a malformed one) throws a `TypeError`
(`Except.error`). `ORDER BY RANDOM()` is the caller-supplied permutation
already applied to `cands`. -/
def getRandomDestination (w : World) : List InstanceR → Except Unit (Option String)
  | [] => .ok none
  | node :: rest =>
    let interactRule := getInstancePermission w node "interact"
    match evaluateRuleNoAgent interactRule with
    | .error e => .error e
    | .ok true => .ok (some node.id)
    | .ok false => getRandomDestination w rest

/-- `recordLinkUsage`. -/
def recordLinkUsage (w : World) (now : Nat) (agentId linkId destinationId destinationName : String) :
    World :=
  { w with
    linkUsage := w.linkUsage ++
      [⟨w.nextLinkUsageId, agentId, linkId, destinationId, destinationName, now⟩],
    nextLinkUsageId := w.nextLinkUsageId + 1 }

/-- `resetHomeNode`: destroy non-system contents of the home node and
restore its default descriptions and fields. -/
def resetHomeNode (w : World) (agentId username : String) : World :=
  match w.findAgent agentId with
  | none => w
  | some agent =>
    let homeNodeId := agent.home_node_id
    let contents := w.instances.filter fun i =>
      i.container_type == some "instance" && i.container_id == some homeNodeId && !i.is_destroyed
    let w1 := contents.foldl
      (fun acc item =>
        match item.system_type with
        | none => acc.updInstance item.id fun i => { i with is_destroyed := true }
        | some st =>
          if st == "" then acc.updInstance item.id fun i => { i with is_destroyed := true }
          else acc)
      w
    w1.updInstance homeNodeId fun i =>
      { i with short_description := username ++ apoS ++ "s home",
               long_description := "A personal home node belonging to " ++ username ++
                 ". It feels quiet and safe here.",
               fields := [] }

end MASH

namespace MASH

/-! ## `src/engine/interactions.ts` -/

/-- The mutable interaction context. `self`/`subject` are cached rows,
refreshed from the store exactly where the original refreshes them. -/
structure Ctx where
  self : InstanceR
  actor : Option AgentR
  subject : Option InstanceR
  template : TemplateR
  denied : Bool

/-- `getCarrierAgent`: the agent at the top of the container chain, if any. -/
def getCarrierAgent (w : World) : Nat → InstanceR → Option AgentR
  | 0, _ => none
  | fuel + 1, inst =>
    match inst.container_type, inst.container_id with
    | some "agent", some cid =>
      if cid == "" then none  -- an empty container id is falsy in the source guard
      else w.findAgent cid
    | some "instance", some cid =>
      if cid == "" then none
      else
        match w.findInstance cid with
        | some parent => getCarrierAgent w fuel parent
        | none => none
    | _, _ => none

/-- `resolveSelfRef` (parts after the `self` head). Refreshes `ctx.self`
from the store before any field access. -/
def resolveSelfRef (w : World) (ctx : Ctx) : List String → Ctx × Option Value
  | [] => (ctx, some (.str ctx.self.id))
  | field :: rest =>
    match w.findInstance ctx.self.id with
    | none => (ctx, none)
    | some fresh =>
      let ctx' := { ctx with self := fresh }
      if field == "short_description" then (ctx', some (.str fresh.short_description))
      else if field == "long_description" then (ctx', some (.str fresh.long_description))
      else if field == "id" then (ctx', some (.str fresh.id))
      else if field == "type" then (ctx', some (.str fresh.type))
      else
        match rest with
        | tplSpec :: subField :: _ =>
          if field == "contents" && tplSpec.startsWith "t:" then
            let tplId := tplSpec.drop 2
            match w.instances.find? (fun i =>
                i.container_type == some "instance" && i.container_id == some fresh.id &&
                i.template_id == some tplId && !i.is_void && !i.is_destroyed) with
            | none => (ctx', none)
            | some contained => (ctx', getF contained.fields subField)
          else (ctx', getF fresh.fields field)
        | _ => (ctx', getF fresh.fields field)

/-- `resolveActorRef`. -/
def resolveActorRef (ctx : Ctx) : List String → Ctx × Option Value
  | parts =>
    match ctx.actor with
    | none => (ctx, none)
    | some actor =>
      match parts with
      | [] => (ctx, some (.str actor.id))
      | field :: _ =>
        if field == "username" then (ctx, some (.str actor.username))
        else if field == "id" then (ctx, some (.str actor.id))
        else if field == "short_description" then (ctx, some (.str actor.short_description))
        else if field == "long_description" then (ctx, some (.str actor.long_description))
        else (ctx, none)

/-- `resolveCarrierRef`. -/
def resolveCarrierRef (w : World) (ctx : Ctx) : List String → Ctx × Option Value
  | parts =>
    match getCarrierAgent w (w.instances.length + 1) ctx.self with
    | none => (ctx, none)
    | some carrier =>
      match parts with
      | [] => (ctx, some (.str carrier.id))
      | field :: rest =>
        if field == "id" then (ctx, some (.str carrier.id))
        else if field == "username" then (ctx, some (.str carrier.username))
        else if field == "short_description" then (ctx, some (.str carrier.short_description))
        else if field == "long_description" then (ctx, some (.str carrier.long_description))
        else
          match rest with
          | tplSpec :: subField :: _ =>
            if field == "contents" && tplSpec.startsWith "t:" then
              let tplId := tplSpec.drop 2
              match w.instances.find? (fun i =>
                  i.container_type == some "agent" && i.container_id == some carrier.id &&
                  i.template_id == some tplId && !i.is_void && !i.is_destroyed) with
              | none => (ctx, none)
              | some contained => (ctx, getF contained.fields subField)
            else (ctx, none)
          | _ => (ctx, none)

/-- `resolveSubjectRef`. Refreshes `ctx.subject` from the store before any
field access. -/
def resolveSubjectRef (w : World) (ctx : Ctx) : List String → Ctx × Option Value
  | parts =>
    match ctx.subject with
    | none => (ctx, none)
    | some subject =>
      match parts with
      | [] => (ctx, some (.str subject.id))
      | field :: _ =>
        match w.findInstance subject.id with
        | none => (ctx, none)
        | some fresh =>
          let ctx' := { ctx with subject := some fresh }
          if field == "short_description" then (ctx', some (.str fresh.short_description))
          else if field == "long_description" then (ctx', some (.str fresh.long_description))
          else if field == "id" then (ctx', some (.str fresh.id))
          else (ctx', getF fresh.fields field)

/-- `resolveContainerRef` (reads the cached `ctx.self` container pointer). -/
def resolveContainerRef (w : World) (ctx : Ctx) : List String → Ctx × Option Value
  | parts =>
    if !(ctx.self.container_type == some "instance") then (ctx, none)
    else
      match ctx.self.container_id with
      | none => (ctx, none)
      | some cid =>
        if cid == "" then (ctx, none)  -- falsy container id
        else
        match w.findInstance cid with
        | none => (ctx, none)
        | some container =>
          match parts with
          | [] => (ctx, some (.str container.id))
          | field :: _ =>
            if field == "short_description" then (ctx, some (.str container.short_description))
            else if field == "long_description" then (ctx, some (.str container.long_description))
            else if field == "id" then (ctx, some (.str container.id))
            else (ctx, getF container.fields field)

/-- `resolveTickRef`: `tick.count` is seconds since UTC midnight, computed
from the `now` timestamp (the original uses `new Date()` accessors). -/
def resolveTickRef (now : Nat) : List String → Option Value
  | [] => none
  | part :: _ =>
    if part == "count" then some (.num (((now / 1000) % 86400 : Nat) : Int))
    else none

/-- `ref.split(".")`, implemented by structural recursion over the
characters (equivalent to `String.splitOn "."`, which is defined by
well-founded recursion and therefore does not evaluate inside the
kernel). -/
def splitOnDotAux : List Char → List Char → List String
  | [], acc => [String.mk acc.reverse]
  | c :: rest, acc =>
    if c = '.' then String.mk acc.reverse :: splitOnDotAux rest []
    else splitOnDotAux rest (c :: acc)

def splitOnDot (s : String) : List String :=
  splitOnDotAux s.toList []

/-- `resolveRef`: dispatch on the dotted reference head. -/
def resolveRef (w : World) (now : Nat) (ctx : Ctx) (ref : String) : Ctx × Option Value :=
  let parts := splitOnDot ref
  match parts with
  | [] => (ctx, none)
  | root :: rest =>
    if root == "self" then resolveSelfRef w ctx rest
    else if root == "actor" then resolveActorRef ctx rest
    else if root == "subject" then resolveSubjectRef w ctx rest
    else if root == "carrier" then resolveCarrierRef w ctx rest
    else if root == "container" then resolveContainerRef w ctx rest
    else if root == "tick" then (ctx, resolveTickRef now rest)
    else (ctx, none)

/-- JS `>`/`<` against the condition literal: defined only when the
resolved value is a number, coercing the literal with `Number`. -/
def jsNumGt (n : Int) (lit : Value) : Bool :=
  match lit.toNumber with
  | some m => n > m
  | none => false

def jsNumLt (n : Int) (lit : Value) : Bool :=
  match lit.toNumber with
  | some m => n < m
  | none => false

/-- `evaluateCondition`. Reference resolution may refresh the context. -/
def evaluateCondition (w : World) (now : Nat) (ctx : Ctx) : Cond → Ctx × Bool
  | .notC c =>
    let (ctx', b) := evaluateCondition w now ctx c
    (ctx', !b)
  | .eqC ref lit =>
    let (ctx', val) := resolveRef w now ctx ref
    match val with
    | none => (ctx', false)
    | some v => (ctx', v.seq lit)
  | .neqC ref lit =>
    let (ctx', val) := resolveRef w now ctx ref
    match val with
    | none => (ctx', true)
    | some v => (ctx', !(v.seq lit))
  | .gtC ref lit =>
    let (ctx', val) := resolveRef w now ctx ref
    match val with
    | some (.num n) => (ctx', jsNumGt n lit)
    | _ => (ctx', false)
  | .ltC ref lit =>
    let (ctx', val) := resolveRef w now ctx ref
    match val with
    | some (.num n) => (ctx', jsNumLt n lit)
    | _ => (ctx', false)
  | .hasC ref templateId =>
    let (ctx', val) := resolveRef w now ctx ref
    match val with
    | none => (ctx', false)
    | some v =>
      if !v.truthy then (ctx', false)
      else
        match v with
        | .str containerId =>
          (ctx', (w.instances.find? fun i =>
            i.container_id == some containerId && i.template_id == some templateId &&
            !i.is_void && !i.is_destroyed).isSome)
        | _ => (ctx', false)  -- a non-string id never matches the TEXT id column

/-- `evaluateConditions`: logical AND with JS `every` short-circuiting. -/
def evaluateConditions (w : World) (now : Nat) (ctx : Ctx) : List Cond → Ctx × Bool
  | [] => (ctx, true)
  | c :: rest =>
    let (ctx', b) := evaluateCondition w now ctx c
    if b then evaluateConditions w now ctx' rest else (ctx', false)

def lbraceC : Char := Char.ofNat 123
def rbraceC : Char := Char.ofNat 125

/-- Split a character list at the first occurrence of `c`. -/
def splitAtChar (c : Char) : List Char → Option (List Char × List Char)
  | [] => none
  | x :: t =>
    if x = c then some ([], t)
    else (splitAtChar c t).map fun p => (x :: p.1, p.2)

/-- `interpolate`, as a scanner for the regex `\x7b([^\x7d]+)\x7d`:
each brace-delimited non-empty token is replaced by the resolved reference
(stringified) or kept verbatim when the reference is `undefined`. `fuel`
is the length of the remaining input. -/
def interpolateGo (w : World) (now : Nat) : Nat → List Char → Ctx → Ctx × List Char
  | 0, chars, ctx => (ctx, chars)
  | fuel + 1, chars, ctx =>
    match chars with
    | [] => (ctx, [])
    | x :: t =>
      if x = lbraceC then
        match splitAtChar rbraceC t with
        | none => (ctx, x :: t)
        | some (content, after) =>
          if content.isEmpty then
            let (ctx', restOut) := interpolateGo w now fuel after ctx
            (ctx', x :: rbraceC :: restOut)
          else
            let refStr := String.mk content
            let (ctx', val) := resolveRef w now ctx refStr
            let replacement :=
              match val with
              | some v => (Value.jsString v).toList
              | none => x :: (content ++ [rbraceC])
            let (ctx'', restOut) := interpolateGo w now fuel after ctx'
            (ctx'', replacement ++ restOut)
      else
        let (ctx', restOut) := interpolateGo w now fuel t ctx
        (ctx', x :: restOut)

def interpolate (w : World) (now : Nat) (template : String) (ctx : Ctx) : Ctx × String :=
  let (ctx', outChars) := interpolateGo w now template.length template.toList ctx
  (ctx', String.mk outChars)

/-- `isAgentId`. -/
def isAgentId (w : World) (ctx : Ctx) (id : String) : Bool :=
  (match ctx.actor with
   | some actor => id == actor.id
   | none => false) ||
  (w.findAgent id).isSome

/-- `checkEffectPermission`: effects on self always succeed; otherwise the
template owner must hold `permKey` on the target. -/
def checkEffectPermission (w : World) (ctx : Ctx) (targetId : String) (permKey : String) : Bool :=
  if targetId == ctx.self.id then true
  else
    match w.findAgent ctx.template.owner_id with
    | none => false
    | some owner =>
      match w.findInstance targetId with
      | none => false
      | some target => checkPermission w owner target permKey

/-- `setRef`: writes through a `self`/`subject`/`container` reference. -/
def setRef (w : World) (ctx : Ctx) (ref : String) (value : Value) : World × Ctx :=
  let parts := splitOnDot ref
  match parts with
  | [] => (w, ctx)
  | root :: rest =>
    if root == "self" then
      match rest with
      | [] => (w, ctx)
      | field :: _ =>
        if field == "short_description" then
          (w.updInstance ctx.self.id (fun i => { i with short_description := value.jsString }),
           { ctx with self := { ctx.self with short_description := value.jsString } })
        else if field == "long_description" then
          (w.updInstance ctx.self.id (fun i => { i with long_description := value.jsString }),
           { ctx with self := { ctx.self with long_description := value.jsString } })
        else
          let newFields := setF ctx.self.fields field value
          (w.updInstance ctx.self.id (fun i => { i with fields := newFields }),
           { ctx with self := { ctx.self with fields := newFields } })
    else if root == "subject" then
      match ctx.subject with
      | none => (w, ctx)
      | some subject =>
        match rest with
        | [] => (w, ctx)
        | field :: _ =>
          if !checkEffectPermission w ctx subject.id "edit" then (w, ctx)
          else if field == "short_description" then
            (w.updInstance subject.id (fun i => { i with short_description := value.jsString }), ctx)
          else if field == "long_description" then
            (w.updInstance subject.id (fun i => { i with long_description := value.jsString }), ctx)
          else
            match w.findInstance subject.id with
            | none => (w, ctx)
            | some fresh =>
              (w.updInstance subject.id (fun i => { i with fields := setF fresh.fields field value }),
               ctx)
    else if root == "container" then
      match rest with
      | [] => (w, ctx)
      | field :: _ =>
        match ctx.self.container_id with
        | none => (w, ctx)
        | some cid =>
          if cid == "" then (w, ctx)
          else if !checkEffectPermission w ctx cid "edit" then (w, ctx)
          else
            match w.findInstance cid with
            | none => (w, ctx)
            | some container =>
              if field == "short_description" then
                (w.updInstance cid (fun i => { i with short_description := value.jsString }), ctx)
              else if field == "long_description" then
                (w.updInstance cid (fun i => { i with long_description := value.jsString }), ctx)
              else
                (w.updInstance cid (fun i => { i with fields := setF container.fields field value }),
                 ctx)
    else (w, ctx)

end MASH

namespace MASH

/-- The id string stored when a resolved non-string value reaches an id
column (SQLite stores the raw value; it then never compares equal to a
TEXT id, which the guards below reproduce via lookups that miss). -/
def Value.asIdStr : Value → String
  | .str s => s
  | v => v.jsString

/-- `executeEffect`: one primitive effect. -/
def executeEffect (w : World) (now : Nat) (ctx : Ctx) : EffectV → World × Ctx
  | .denyE => (w, { ctx with denied := true })
  | .setE ref value => setRef w ctx ref value
  | .addE ref rawAmount =>
    let (ctx1, amount) :=
      match rawAmount with
      | .str s =>
        let (c, v) := resolveRef w now ctx s
        (c, v)
      | v => (ctx, some v)
    match amount with
    | some (.num n) =>
      let (ctx2, current) := resolveRef w now ctx1 ref
      let newVal : Int :=
        (match current with
         | some (.num m) => m
         | _ => 0) + n
      setRef w ctx2 ref (.num newVal)
    | _ => (w, ctx1)
  | .sayE text =>
    let (ctx1, message) := interpolate w now text ctx
    match getContainingNode w (w.instances.length + 1) ctx1.self with
    | some nodeId =>
      (broadcastToNode w now nodeId "broadcast" (.obj [("message", .str message)]) none, ctx1)
    | none => (w, ctx1)
  | .takeE templateId fromRef =>
    let (ctx1, fromV) := resolveRef w now ctx fromRef
    match fromV with
    | none => (w, ctx1)
    | some v =>
      if !v.truthy then (w, ctx1)
      else
        match v with
        | .str fromId =>
          let fromIsAgent := isAgentId w ctx1 fromId
          if !fromIsAgent && !checkEffectPermission w ctx1 fromId "contain" then (w, ctx1)
          else
            let containerType := if fromIsAgent then "agent" else "instance"
            match w.instances.find? (fun i =>
                i.template_id == some templateId && i.container_type == some containerType &&
                i.container_id == some fromId && !i.is_void && !i.is_destroyed) with
            | none => (w, ctx1)
            | some thing =>
              (w.updInstance thing.id (fun i =>
                { i with container_type := some "instance", container_id := some ctx1.self.id }),
               ctx1)
        | _ => (w, ctx1)  -- non-string source id: agent test and permission lookup both miss
  | .giveE templateId toRef =>
    let (ctx1, toV) := resolveRef w now ctx toRef
    match toV with
    | none => (w, ctx1)
    | some v =>
      if !v.truthy then (w, ctx1)
      else
        match v with
        | .str toId =>
          let toIsAgent := isAgentId w ctx1 toId
          if !toIsAgent && !checkEffectPermission w ctx1 toId "contain" then (w, ctx1)
          else
            match w.instances.find? (fun i =>
                i.template_id == some templateId && i.container_type == some "instance" &&
                i.container_id == some ctx1.self.id && !i.is_void && !i.is_destroyed) with
            | none => (w, ctx1)
            | some thing =>
              let containerType := if toIsAgent then "agent" else "instance"
              (w.updInstance thing.id (fun i =>
                { i with container_type := some containerType, container_id := some toId }),
               ctx1)
        | _ => (w, ctx1)
  | .moveE ref destRef =>
    let (ctx1, targetV) := resolveRef w now ctx ref
    match targetV with
    | none => (w, ctx1)
    | some tv =>
      if !tv.truthy then (w, ctx1)
      else
        match tv with
        | .str targetId =>
          let (ctx2, destV) := resolveRef w now ctx1 destRef
          let nodeId : String :=
            match destV with
            | some .null => destRef
            | some v => v.asIdStr
            | none => destRef
          let moveIsAgent := isAgentId w ctx2 targetId
          if targetId != ctx2.self.id && !moveIsAgent &&
              !checkEffectPermission w ctx2 targetId "contain" then (w, ctx2)
          else
            match w.findAgent targetId with
            | some _ =>
              match w.instances.find? (fun i =>
                  i.id == nodeId && i.type == "node" && !i.is_void && !i.is_destroyed) with
              | some destNode =>
                let w1 := w.updAgent targetId fun a => { a with current_node_id := some nodeId }
                (addEvent w1 now targetId "system"
                  (.obj [("message", .str ("You have been moved to " ++
                    destNode.short_description ++ "."))]),
                 ctx2)
              | none => (w, ctx2)
            | none =>
              match w.findInstance targetId with
              | some _ =>
                (w.updInstance targetId (fun i =>
                  { i with container_type := some "instance", container_id := some nodeId }),
                 ctx2)
              | none => (w, ctx2)
        | _ => (w, ctx1)  -- non-string target id: every lookup misses
  | .createE templateId atRef =>
    let (ctx1, atV) := resolveRef w now ctx atRef
    match atV with
    | none => (w, ctx1)
    | some v =>
      if !v.truthy then (w, ctx1)
      else
        match w.findTemplate templateId with
        | none => (w, ctx1)
        | some template =>
          let containerId := v.asIdStr
          let createIsAgent := isAgentId w ctx1 containerId
          let containerType := if createIsAgent then "agent" else "instance"
          let id := genId w.nextGen
          let newInst : InstanceR :=
            { id := id, template_id := some template.id, type := template.type,
              short_description := template.short_description,
              long_description := template.long_description,
              fields := template.fields, permissions := [],
              container_type := some containerType, container_id := some containerId,
              is_void := false, is_destroyed := false, system_type := none,
              interactions_used_this_tick := 0, created_at := now }
          ({ w with instances := w.instances ++ [newInst], nextGen := w.nextGen + 1 }, ctx1)
  | .destroyE ref =>
    let (ctx1, targetV) := resolveRef w now ctx ref
    match targetV with
    | none => (w, ctx1)
    | some v =>
      if !v.truthy then (w, ctx1)
      else
        match v with
        | .str targetId =>
          if targetId != ctx1.self.id && !checkEffectPermission w ctx1 targetId "delete" then
            (w, ctx1)
          else
            (w.updInstance targetId (fun i => { i with is_destroyed := true }), ctx1)
        | _ => (w, ctx1)
  | .permE ref permKey value =>
    let (ctx1, targetV) := resolveRef w now ctx ref
    match targetV with
    | none => (w, ctx1)
    | some v =>
      if !v.truthy then (w, ctx1)
      else
        match v with
        | .str targetId =>
          match w.findInstance targetId with
          | none => (w, ctx1)
          | some target =>
            if targetId != ctx1.self.id then
              if !checkEffectPermission w ctx1 targetId "perms" then (w, ctx1)
              else
                match w.findAgent ctx1.template.owner_id with
                | some owner =>
                  if !checkPermission w owner target permKey then (w, ctx1)
                  else
                    (w.updInstance targetId (fun i =>
                      { i with permissions := setPerm target.permissions permKey value }), ctx1)
                | none =>
                  (w.updInstance targetId (fun i =>
                    { i with permissions := setPerm target.permissions permKey value }), ctx1)
            else
              (w.updInstance targetId (fun i =>
                { i with permissions := setPerm target.permissions permKey value }), ctx1)
        | _ => (w, ctx1)

mutual
/-- `executeEffects`: run effect entries in order, stopping at a set
`denied` flag. -/
def executeEffects (w : World) (now : Nat) (ctx : Ctx) : List EffectEntry → World × Ctx
  | [] => (w, ctx)
  | entry :: rest =>
    if ctx.denied then (w, ctx)
    else
      let (w', ctx') := executeEntry w now ctx entry
      executeEffects w' now ctx' rest

/-- One effect entry: a nested conditional block evaluates its `if` list
(sharing the same context, hence the same `denied` flag) and runs the
chosen branch; a primitive effect runs `executeEffect`. -/
def executeEntry (w : World) (now : Nat) (ctx : Ctx) : EffectEntry → World × Ctx
  | .eff e => executeEffect w now ctx e
  | .block condL doL elseL =>
    let p :=
      match condL with
      | some cs => evaluateConditions w now ctx cs
      | none => (ctx, true)
    if p.2 then executeEffects w now p.1 doL
    else
      match elseL with
      | some es => executeEffects w now p.1 es
      | none => (w, p.1)
end

/-- The rule loop of `fireInteractions`: runs matching rules in template
order, stopping at the per-tick budget or a set `denied` flag, persisting
the advanced counter after each rule. -/
def fireLoop (now : Nat) (instId : String) :
    List InteractionR → World → Ctx → Nat → World × Ctx × Nat
  | [], w, ctx, used => (w, ctx, used)
  | interaction :: rest, w, ctx, used =>
    if used ≥ MAX_INTERACTIONS_PER_TICK then (w, ctx, used)
    else if ctx.denied then (w, ctx, used)
    else
      let p :=
        match interaction.iff with
        | some cs => evaluateConditions w now ctx cs
        | none => (ctx, true)
      let q :=
        if p.2 then executeEffects w now p.1 interaction.doL
        else
          match interaction.elseL with
          | some es => executeEffects w now p.1 es
          | none => (w, p.1)
      let used' := used + 1
      let w2 := q.1.updInstance instId fun i => { i with interactions_used_this_tick := used' }
      fireLoop now instId rest w2 q.2 used'

/-- `fireInteractions`, instrumented: besides the final world and the
`denied` flag the triple exposes the number of rules the call executed
(the increments applied to the local `usedThisTick`), used to state the
per-tick interaction budget. -/
def fireInteractionsX (w : World) (now : Nat) (inst : InstanceR) (verb : String)
    (actor : Option AgentR) (subject : Option InstanceR) : World × Bool × Nat :=
  if inst.is_void || inst.is_destroyed then (w, false, 0)
  else
    match inst.template_id with
    | none => (w, false, 0)
    | some tid =>
      match w.findTemplate tid with
      | none => (w, false, 0)
      | some template =>
        let matching := template.interactions.filter fun i => i.onV == verb
        if matching.isEmpty then (w, false, 0)
        else
          let usedThisTick :=
            match w.findInstance inst.id with
            | some fresh => fresh.interactions_used_this_tick
            | none => 0
          let ctx : Ctx :=
            { self := inst, actor := actor, subject := subject, template := template,
              denied := false }
          let r := fireLoop now inst.id matching w ctx usedThisTick
          (r.1, r.2.1.denied, r.2.2 - usedThisTick)

/-- `fireInteractions`: returns `true` when any interaction issued `deny`. -/
def fireInteractions (w : World) (now : Nat) (inst : InstanceR) (verb : String)
    (actor : Option AgentR) (subject : Option InstanceR) : World × Bool :=
  let (w', denied, _) := fireInteractionsX w now inst verb actor subject
  (w', denied)

end MASH

namespace MASH

/-! ## `src/queued.ts` -/

/-- `{error: msg}` result object. -/
def errV (msg : String) : Value := .obj [("error", .str msg)]

def quoteS (s : String) : String := apoS ++ s ++ apoS

/-- `enqueueAction`: append a queue row, returning its ordinal. -/
def enqueueAction (w : World) (now : Nat) (agentId action : String) (params : ParamsR)
    (tickNumber : Nat) : World × Nat :=
  ({ w with
      actionQueue := w.actionQueue ++
        [⟨w.nextActionId, agentId, action, params, tickNumber, now⟩],
      nextActionId := w.nextActionId + 1 },
   w.nextActionId)

/-- `refundAp`. -/
def refundAp (w : World) (agent : AgentR) (amount : Int) : World :=
  if amount > 0 then w.updAgent agent.id fun a => { a with ap := a.ap + amount } else w

/-- The stock default permission set used when `create template` omits
`default_permissions`. -/
def stockDefaultPerms : Perms :=
  [("inspect", .anyR), ("interact", .anyR), ("edit", .ownerR), ("delete", .ownerR),
   ("contain", .ownerR), ("perms", .ownerR)]

/-- `createTemplate`. -/
def createTemplate (w : World) (now : Nat) (agent : AgentR) (params : ParamsR) : World × Value :=
  match params.name, params.template_type with
  | some name, some template_type =>
    if name == "" || template_type == "" then
      (w, errV "name and template_type required")
    else if !(["node", "link", "thing"].contains template_type) then
      (w, errV "template_type must be node, link, or thing")
    else
      let id := genId w.nextGen
      let t : TemplateR :=
        { id := id, owner_id := agent.id, name := name, type := template_type,
          short_description := (params.short_description.getD ""),
          long_description := (params.long_description.getD ""),
          fields := params.fields.getD [],
          default_permissions := params.default_permissions.getD stockDefaultPerms,
          interactions := params.interactions.getD [],
          created_at := now }
      ({ w with templates := w.templates ++ [t], nextGen := w.nextGen + 1 },
       .obj [("template_id", .str id)])
  | _, _ => (w, errV "name and template_type required")

/-- `createInstance`. -/
def createInstance (w : World) (now : Nat) (agent : AgentR) (params : ParamsR) : World × Value :=
  match params.template_id with
  | none => (w, errV "template_id required")
  | some template_id =>
    if template_id == "" then (w, errV "template_id required")
    else
      match w.findTemplate template_id with
      | none => (w, errV "template not found")
      | some template =>
        if template.owner_id != agent.id then
          (w, errV ("you don" ++ apoS ++ "t own this template"))
        else
          let containerResult : Except Value (Option String × Option String) :=
            if template.type == "node" then .ok (none, none)
            else
              match params.container_id with
              | some container_id =>
                if container_id == "" then .ok (some "instance", agent.current_node_id)
                else
                  match w.findInstance container_id with
                  | none => .error (errV "container not found")
                  | some container =>
                    if container.is_void || container.is_destroyed then
                      .error (errV "container not found")
                    else if !checkPermission w agent container "contain" then
                      .error (errV "no contain permission on target container")
                    else if !checkContainmentDepth w container_id then
                      .error (errV "containment depth exceeded")
                    else .ok (some "instance", some container_id)
              | none => .ok (some "instance", agent.current_node_id)
          match containerResult with
          | .error e => (w, e)
          | .ok (containerType, containerId) =>
            let id := genId w.nextGen
            let mergedFields := mergeF template.fields (params.fields.getD [])
            let inst : InstanceR :=
              { id := id, template_id := some template.id, type := template.type,
                short_description := template.short_description,
                long_description := template.long_description,
                fields := mergedFields, permissions := [],
                container_type := containerType, container_id := containerId,
                is_void := false, is_destroyed := false, system_type := none,
                interactions_used_this_tick := 0, created_at := now }
            ({ w with instances := w.instances ++ [inst], nextGen := w.nextGen + 1 },
             .obj [("instance_id", .str id)])

/-- `processCreate`. -/
def processCreate (w : World) (now : Nat) (agent : AgentR) (params : ParamsR) : World × Value :=
  match params.type_ with
  | some "template" => createTemplate w now agent params
  | some "instance" => createInstance w now agent params
  | _ => (w, errV ("type must be " ++ quoteS "template" ++ " or " ++ quoteS "instance"))

/-- `editTemplate`. -/
def editTemplate (w : World) (agent : AgentR) (templateId : String) (params : ParamsR) :
    World × Value :=
  match w.findTemplate templateId with
  | none => (w, errV "template not found")
  | some template =>
    if template.owner_id != agent.id then
      (w, errV ("you don" ++ apoS ++ "t own this template"))
    else
      let hasUpdate := params.changes_name.isSome || params.changes_short_description.isSome ||
        params.changes_long_description.isSome || params.changes_fields.isSome ||
        params.changes_default_permissions.isSome || params.changes_interactions.isSome
      if !hasUpdate then (w, errV "no valid changes")
      else
        (w.updTemplate templateId (fun t =>
          let t := match params.changes_name with
            | some v => { t with name := v }
            | none => t
          let t := match params.changes_short_description with
            | some v => { t with short_description := v }
            | none => t
          let t := match params.changes_long_description with
            | some v => { t with long_description := v }
            | none => t
          let t := match params.changes_fields with
            | some v => { t with fields := v }
            | none => t
          let t := match params.changes_default_permissions with
            | some v => { t with default_permissions := v }
            | none => t
          match params.changes_interactions with
          | some v => { t with interactions := v }
          | none => t),
         .obj [("updated", .bool true)])

/-- `editInstance`. The permission merge is guarded by `perms` held by the
acting agent (not by the template owner). -/
def editInstance (w : World) (agent : AgentR) (instanceId : String) (params : ParamsR) :
    World × Value :=
  match w.findInstance instanceId with
  | none => (w, errV "instance not found or is void")
  | some inst =>
    if inst.is_void || inst.is_destroyed then (w, errV "instance not found or is void")
    else if !checkPermission w agent inst "edit" then (w, errV "no edit permission")
    else if params.changes_permissions.isSome && !checkPermission w agent inst "perms" then
      (w, errV "no perms permission")
    else
      let hasUpdate := params.changes_short_description.isSome ||
        params.changes_long_description.isSome || params.changes_fields.isSome ||
        params.changes_permissions.isSome
      if !hasUpdate then (w, errV "no valid changes")
      else
        (w.updInstance instanceId (fun i =>
          let i := match params.changes_short_description with
            | some v => { i with short_description := v }
            | none => i
          let i := match params.changes_long_description with
            | some v => { i with long_description := v }
            | none => i
          let i := match params.changes_fields with
            | some v => { i with fields := mergeF inst.fields v }
            | none => i
          match params.changes_permissions with
          | some v => { i with permissions := mergePerms inst.permissions v }
          | none => i),
         .obj [("updated", .bool true)])

/-- `processEdit`. -/
def processEdit (w : World) (agent : AgentR) (params : ParamsR) : World × Value :=
  match params.target_id with
  | none => (w, errV "target_id and changes required")
  | some target_id =>
    if target_id == "" || !params.changes_present then
      (w, errV "target_id and changes required")
    else
      match params.target_type with
      | some "template" => editTemplate w agent target_id params
      | some "instance" => editInstance w agent target_id params
      | _ => (w, errV ("target_type must be " ++ quoteS "template" ++ " or " ++
          quoteS "instance"))

/-- `handleVoidCascade`: send agents home out of a voided/destroyed node and
destroy contained items, recursively. `fuel` bounds the recursion; the
original terminates because every recursive call destroys a row first. -/
def handleVoidCascade (w : World) (now : Nat) : Nat → InstanceR → World
  | 0, _ => w
  | fuel + 1, inst =>
    let w1 :=
      if inst.type == "node" then
        (w.agents.filter fun a => a.current_node_id == some inst.id).foldl
          (fun acc a =>
            let acc := acc.updAgent a.id fun x => { x with current_node_id := some a.home_node_id }
            addEvent acc now a.id "system"
              (.obj [("message",
                .str "The node you were in has been destroyed. You have been sent home.")]))
          w
      else w
    let contained := w1.instances.filter fun i =>
      i.container_type == some "instance" && i.container_id == some inst.id && !i.is_destroyed
    contained.foldl
      (fun acc item =>
        let acc := acc.updInstance item.id fun i => { i with is_destroyed := true }
        handleVoidCascade acc now fuel item)
      w1

/-- `deleteTemplate`: void all instances (with cascade) and drop the row. -/
def deleteTemplate (w : World) (now : Nat) (templateId : String) : World × Value :=
  let instances := w.instances.filter fun i => i.template_id == some templateId && !i.is_void
  let w1 := instances.foldl
    (fun acc inst =>
      let acc := acc.updInstance inst.id fun i =>
        { i with is_void := true, template_id := none }
      handleVoidCascade acc now (acc.instances.length + 1) inst)
    w
  ({ w1 with templates := w1.templates.filter fun t => t.id != templateId },
   .obj [("deleted", .bool true), ("voided_instances", .num instances.length)])

/-- `deleteInstance`. -/
def deleteInstance (w : World) (now : Nat) (inst : InstanceR) : World × Value :=
  let w1 := w.updInstance inst.id fun i => { i with is_destroyed := true }
  (handleVoidCascade w1 now (w1.instances.length + 1) inst, .obj [("deleted", .bool true)])

/-- `processDelete`. -/
def processDelete (w : World) (now : Nat) (agent : AgentR) (params : ParamsR) : World × Value :=
  match params.target_id with
  | none => (w, errV "target_id required")
  | some target_id =>
    if target_id == "" then (w, errV "target_id required")
    else
      match w.findTemplate target_id with
      | some template =>
        if template.owner_id != agent.id then
          (w, errV ("you don" ++ apoS ++ "t own this template"))
        else deleteTemplate w now target_id
      | none =>
        match w.findInstance target_id with
        | none => (w, errV "target not found")
        | some inst =>
          if inst.is_destroyed then (w, errV "target not found")
          else if !checkPermission w agent inst "delete" then
            (w, errV "no delete permission")
          else deleteInstance w now inst

end MASH

namespace MASH

/-- `generateTravelEvents`: departure/arrival broadcasts (the departure one
has no recipients when the origin is `NULL`). -/
def generateTravelEvents (w : World) (now : Nat) (agent : AgentR) (fromNodeId : Option String)
    (toNodeId : String) : World :=
  let w1 :=
    match fromNodeId with
    | some f =>
      broadcastToNode w now f "broadcast"
        (.obj [("message", .str (agent.username ++ " has left."))]) (some agent.id)
    | none => w
  broadcastToNode w1 now toNodeId "broadcast"
    (.obj [("message", .str (agent.username ++ " has arrived."))]) (some agent.id)

/-- `generatePerception`: the perception-capped node snapshot. -/
def generatePerception (w : World) (agent : AgentR) (nodeId : Option String) : Value :=
  match nodeId with
  | none => .obj []
  | some nid =>
    match w.findInstance nid with
    | none => .obj []
    | some node =>
      let agents := (w.agents.filter fun a =>
        a.current_node_id == some nid && a.id != agent.id).take agent.perception_max_agents
      let links := (w.instances.filter fun i =>
        i.container_type == some "instance" && i.container_id == some nid &&
        i.type == "link" && !i.is_void && !i.is_destroyed).take agent.perception_max_links
      let things := (w.instances.filter fun i =>
        i.container_type == some "instance" && i.container_id == some nid &&
        i.type == "thing" && !i.is_void && !i.is_destroyed).take agent.perception_max_things
      .obj [("node", .obj [("id", .str node.id),
              ("short_description", .str node.short_description),
              ("long_description", .str node.long_description)]),
            ("agents", .arr (agents.map fun a => .obj [("id", .str a.id),
              ("username", .str a.username),
              ("short_description", .str a.short_description)])),
            ("links", .arr (links.map fun l => .obj [("id", .str l.id),
              ("short_description", .str l.short_description)])),
            ("things", .arr (things.map fun t => .obj [("id", .str t.id),
              ("short_description", .str t.short_description)]))]

def optStrV : Option String → Value
  | some s => .str s
  | none => .null

/-- The hop loop of `processTravel` over the remaining link ids. At hop `i`
of `n` the remaining list has length `n - i`, so the validation-failure
refund `n - i` is the length of the remaining list and the deny refund
`n - i - 1` is the length of its tail. A `TypeError` escaping
`getRandomDestination` (absent agent argument) propagates as
`Except.error` with no refund. -/
def travelLoop (now : Nat) (agent : AgentR) (shuffle : List InstanceR → List InstanceR) :
    List String → World → Option String → World × Except Unit Value
  | [], w, cur =>
    (w, .ok (.obj [("arrived_at", optStrV cur),
                   ("perception", generatePerception w agent cur)]))
  | linkId :: rest, w, cur =>
    let remaining : Int := rest.length + 1
    match w.instances.find? (fun i => i.id == linkId && i.type == "link") with
    | none =>
      (refundAp w agent remaining, .ok (errV ("link " ++ linkId ++ " not found or is void")))
    | some link =>
      if link.is_void || link.is_destroyed then
        (refundAp w agent remaining, .ok (errV ("link " ++ linkId ++ " not found or is void")))
      else if !(link.container_type == some "instance" && link.container_id == cur) then
        (refundAp w agent remaining,
         .ok (errV ("link " ++ linkId ++ " is not in your current node")))
      else
        let destinationResult : Except (World × Except Unit Value) String :=
          if link.system_type == some "random_link" then
            match getRandomDestination w (shuffle (randomCandidates w cur)) with
            | .error e => .error (w, .error e)
            | .ok none =>
              .error (refundAp w agent remaining, .ok (errV "no available destinations"))
            | .ok (some d) => .ok d
          else
            match getF link.fields "destination" with
            | none =>
              .error (refundAp w agent remaining,
                .ok (errV ("link " ++ linkId ++ " has no destination")))
            | some v =>
              if !v.truthy then
                .error (refundAp w agent remaining,
                  .ok (errV ("link " ++ linkId ++ " has no destination")))
              else .ok v.asIdStr
        match destinationResult with
        | .error out => out
        | .ok destinationId =>
          match w.instances.find? (fun i =>
              i.id == destinationId && i.type == "node" && !i.is_void && !i.is_destroyed) with
          | none =>
            (refundAp w agent remaining, .ok (errV "destination node not found or is void"))
          | some destNode =>
            let (w1, denied1) := fireInteractions w now link "travel" (some agent) none
            if denied1 then
              (refundAp w1 agent (remaining - 1),
               .ok (.obj [("error", .str ("travel denied by " ++ link.short_description)),
                          ("stopped_at", optStrV cur)]))
            else
              let fromNode :=
                match cur with
                | some c => w1.findInstance c
                | none => none
              let (w2, denied2) :=
                match fromNode with
                | some f => fireInteractions w1 now f "exit" (some agent) none
                | none => (w1, false)
              if denied2 then
                (refundAp w2 agent (remaining - 1),
                 .ok (.obj [("error", .str "exit denied by node"),
                            ("stopped_at", optStrV cur)]))
              else
                let (w3, denied3) := fireInteractions w2 now destNode "enter" (some agent) none
                if denied3 then
                  (refundAp w3 agent (remaining - 1),
                   .ok (.obj [("error", .str "entry denied by destination node"),
                              ("stopped_at", optStrV cur)]))
                else
                  let destName := destNode.short_description
                  let w4 := recordLinkUsage w3 now agent.id linkId destinationId destName
                  let w5 := w4.updAgent agent.id fun a =>
                    { a with current_node_id := some destinationId }
                  let w6 := generateTravelEvents w5 now agent cur destinationId
                  travelLoop now agent shuffle rest w6 (some destinationId)

/-- `processTravel`. `shuffle` stands for `ORDER BY RANDOM()` inside
`getRandomDestination`. -/
def processTravel (w : World) (now : Nat) (agent : AgentR)
    (shuffle : List InstanceR → List InstanceR) (params : ParamsR) :
    World × Except Unit Value :=
  match params.via with
  | none => (w, .ok (errV "via required (link id or array of link ids)"))
  | some linkIds =>
    if linkIds.isEmpty then (w, .ok (errV "via must not be empty"))
    else travelLoop now agent shuffle linkIds w agent.current_node_id

/-- `processHome`. -/
def processHome (w : World) (now : Nat) (agent : AgentR) : World × Value :=
  let originNodeId := agent.current_node_id
  if originNodeId == some agent.home_node_id then (w, errV "you are already home")
  else
    let w1 := w.updAgent agent.id fun a => { a with current_node_id := some a.home_node_id }
    let w2 := generateTravelEvents w1 now agent originNodeId agent.home_node_id
    (w2, .obj [("arrived_at", .str agent.home_node_id),
               ("perception", generatePerception w2 agent (some agent.home_node_id))])

/-- `isInAgentInventory`. -/
def isInAgentInventory (w : World) : Nat → InstanceR → String → Bool
  | 0, _, _ => false
  | fuel + 1, inst, agentId =>
    if inst.container_type == some "agent" && inst.container_id == some agentId then true
    else
      match instParentId inst with
      | some cid =>
        match w.findInstance cid with
        | some parent => isInAgentInventory w fuel parent agentId
        | none => false
      | none => false

/-- `processTake`. -/
def processTake (w : World) (now : Nat) (agent : AgentR) (params : ParamsR) : World × Value :=
  match params.target_id with
  | none => (w, errV "target_id required")
  | some target_id =>
    if target_id == "" then (w, errV "target_id required")
    else
      match w.instances.find? (fun i => i.id == target_id && i.type == "thing") with
      | none => (w, errV "thing not found or is void")
      | some thing =>
        if thing.is_void || thing.is_destroyed then (w, errV "thing not found or is void")
        else if getContainingNode w (w.instances.length + 1) thing != agent.current_node_id then
          (w, errV "thing is not in your current node")
        else if !checkPermission w agent thing "contain" then
          (w, errV "no contain permission on thing")
        else
          let containerOk :=
            match thing.container_type, thing.container_id with
            | some "instance", some cid =>
              if cid == "" then true  -- falsy container id skips the container check
              else
                match w.findInstance cid with
                | some container => checkPermission w agent container "contain"
                | none => true
            | _, _ => true
          if !containerOk then (w, errV "no contain permission on container")
          else
            let (w1, denied) := fireInteractions w now thing "take" (some agent) none
            if denied then (w1, errV "take denied by interaction")
            else
              let placed : Except Value World :=
                match params.into with
                | some into =>
                  if into == "" then
                    .ok (w1.updInstance target_id fun i =>
                      { i with container_type := some "agent", container_id := some agent.id })
                  else
                    match w1.instances.find? (fun i => i.id == into && i.type == "thing") with
                    | none => .error (errV "destination container not found")
                    | some dest =>
                      if dest.is_void || dest.is_destroyed then
                        .error (errV "destination container not found")
                      else if !(dest.container_type == some "agent" &&
                          dest.container_id == some agent.id) then
                        .error (errV "destination must be in your inventory")
                      else if !checkPermission w1 agent dest "contain" then
                        .error (errV "no contain permission on destination")
                      else if !checkContainmentDepth w1 into then
                        .error (errV "containment depth exceeded")
                      else
                        .ok (w1.updInstance target_id fun i =>
                          { i with container_type := some "instance", container_id := some into })
                | none =>
                  .ok (w1.updInstance target_id fun i =>
                    { i with container_type := some "agent", container_id := some agent.id })
              match placed with
              | .error e => (w1, e)
              | .ok w2 =>
                let w3 :=
                  match agent.current_node_id with
                  | some cn =>
                    broadcastToNode w2 now cn "broadcast"
                      (.obj [("message",
                        .str (agent.username ++ " takes " ++ thing.short_description ++ "."))])
                      (some agent.id)
                  | none => w2
                (w3, .obj [("taken", .bool true), ("thing_id", .str target_id)])

/-- `processDrop`. -/
def processDrop (w : World) (now : Nat) (agent : AgentR) (params : ParamsR) : World × Value :=
  match params.target_id with
  | none => (w, errV "target_id required")
  | some target_id =>
    if target_id == "" then (w, errV "target_id required")
    else
      match w.instances.find? (fun i => i.id == target_id && i.type == "thing") with
      | none => (w, errV "thing not found or is void")
      | some thing =>
        if thing.is_void || thing.is_destroyed then (w, errV "thing not found or is void")
        else if !isInAgentInventory w (w.instances.length + 1) thing agent.id then
          (w, errV "thing is not in your inventory")
        else
          let (w1, denied) := fireInteractions w now thing "drop" (some agent) none
          if denied then (w1, errV "drop denied by interaction")
          else
            let placed : Except Value World :=
              match params.into with
              | some into =>
                if into == "" then
                  .ok (w1.updInstance target_id fun i =>
                    { i with container_type := some "instance",
                             container_id := agent.current_node_id })
                else
                  match w1.findInstance into with
                  | none => .error (errV "destination not found")
                  | some dest =>
                    if dest.is_void || dest.is_destroyed then
                      .error (errV "destination not found")
                    else if !checkPermission w1 agent dest "contain" then
                      .error (errV "no contain permission on destination")
                    else if getContainingNode w1 (w1.instances.length + 1) dest !=
                        agent.current_node_id then
                      .error (errV "destination not in current node")
                    else if !checkContainmentDepth w1 into then
                      .error (errV "containment depth exceeded")
                    else
                      .ok (w1.updInstance target_id fun i =>
                        { i with container_type := some "instance", container_id := some into })
              | none =>
                .ok (w1.updInstance target_id fun i =>
                  { i with container_type := some "instance",
                           container_id := agent.current_node_id })
            match placed with
            | .error e => (w1, e)
            | .ok w2 =>
              let w3 :=
                match agent.current_node_id with
                | some cn =>
                  broadcastToNode w2 now cn "broadcast"
                    (.obj [("message",
                      .str (agent.username ++ " drops " ++ thing.short_description ++ "."))])
                    (some agent.id)
                | none => w2
              (w3, .obj [("dropped", .bool true), ("thing_id", .str target_id)])

/-- `processCustomVerb`. -/
def processCustomVerb (w : World) (now : Nat) (agent : AgentR) (verb : String)
    (params : ParamsR) : World × Value :=
  match params.target_id with
  | none => (w, errV "target_id required")
  | some target_id =>
    if target_id == "" then (w, errV "target_id required")
    else
      match w.findInstance target_id with
      | none => (w, errV "target not found or is void")
      | some target =>
        if target.is_void || target.is_destroyed then (w, errV "target not found or is void")
        else if !checkPermission w agent target "interact" then
          (w, errV "no interact permission")
        else if verb == "reset" && target.id == agent.home_node_id then
          (resetHomeNode w agent.id agent.username, .obj [("reset", .bool true)])
        else
          let subjectResult : Except Value (Option InstanceR) :=
            match params.subject_id with
            | some sid =>
              if sid == "" then .ok none
              else
                match w.findInstance sid with
                | none => .error (errV "subject not found or is void")
                | some subject =>
                  if subject.is_void || subject.is_destroyed then
                    .error (errV "subject not found or is void")
                  else .ok (some subject)
            | none => .ok none
          match subjectResult with
          | .error e => (w, e)
          | .ok subject =>
            let (w1, denied) := fireInteractions w now target verb (some agent) subject
            if denied then (w1, errV "action denied by interaction")
            else
              (w1, .obj [("verb_fired", .bool true), ("target_id", .str target_id),
                         ("verb", .str verb)])

end MASH

namespace MASH

/-! ## `src/actions.ts` -/

/-- `Math.max(1, Math.min(10, Number(params.count) || 1))`. -/
def buyApCount (count : Option Value) : Int :=
  let n : Int :=
    match count with
    | none => 1
    | some v =>
      match v.toNumber with
      | none => 1
      | some k => if k == 0 then 1 else k
  max 1 (min 10 n)

/-- `handleBuyAp`. `Except.error` models the `TypeError` thrown when the
authenticated agent row is unexpectedly missing. -/
def handleBuyAp (w : World) (agent : AgentR) (params : ParamsR) : World × Except Unit Value :=
  let count := buyApCount params.count
  match w.findAgent agent.id with
  | none => (w, .error ())
  | some freshAgent =>
    if freshAgent.purchased_ap_this_tick + count > MAX_BUY_AP_PER_TICK then
      (w, .ok (errV ("can buy at most " ++ toString MAX_BUY_AP_PER_TICK ++ " AP per tick")))
    else
      (w.updAgent agent.id (fun a =>
        { a with ap := a.ap + count,
                 purchased_ap_this_tick := a.purchased_ap_this_tick + count }),
       .ok (.obj [("purchased", .num count)]))

/-- The AP cost computed at `/action/:verb` entry: travel with an array
`via` costs one AP per hop, everything else (instant or queued) costs 1. -/
def actionApCost (verb : String) (params : ParamsR) : Nat :=
  if verb == "travel" then
    match params.via with
    | some l => if params.via_is_array then l.length else 1
    | none => 1
  else 1

/-- The AP check and debit of `actions.post` (lines 36-45): `false` is the
HTTP 429 `no AP remaining` path, with no debit. -/
def postActionDebit (w : World) (agentId : String) (cost : Nat) : World × Bool :=
  match w.findAgent agentId with
  | none => (w, false)
  | some freshAgent =>
    if freshAgent.ap < (cost : Int) then (w, false)
    else (w.updAgent agentId (fun a => { a with ap := a.ap - cost }), true)

/-! ## `src/engine/tick.ts` -/

/-- The queued-verb dispatch of tick phase 4, including the per-entry
`catch` that turns a thrown `TypeError` into `{error: "action failed"}`. -/
def dispatchAction (w : World) (now : Nat) (agent : AgentR) (action : String)
    (params : ParamsR) (shuffle : List InstanceR → List InstanceR) : World × Value :=
  if action == "create" then processCreate w now agent params
  else if action == "edit" then processEdit w agent params
  else if action == "delete" then processDelete w now agent params
  else if action == "travel" then
    match processTravel w now agent shuffle params with
    | (w', .ok v) => (w', v)
    | (w', .error _) => (w', errV "action failed")
  else if action == "home" then processHome w now agent
  else if action == "take" then processTake w now agent params
  else if action == "drop" then processDrop w now agent params
  else processCustomVerb w now agent action params

/-- `processTick`: advance counters, reset AP and interaction counters
(the source resets `ap` only — `purchased_ap_this_tick` is left as is),
reap idle agents, fire `tick` in occupied nodes, drain the action queue,
and garbage-collect old events. -/
def processTick (w : World) (now : Nat) (shuffle : List InstanceR → List InstanceR) : World :=
  let tickNumber := w.tickNumber + 1
  let w0 : World := { w with tickNumber := tickNumber, lastTickAt := now }
  -- Phase 1: reset AP + interaction counters
  let w1 : World := { w0 with agents := w0.agents.map fun a => { a with ap := MAX_AP } }
  let w2 : World := { w1 with instances := w1.instances.map fun i =>
    { i with interactions_used_this_tick := 0 } }
  -- Phase 2: send idle agents to limbo
  let idleCutoff : Int := (now : Int) - (IDLE_TIMEOUT_MS : Int)
  let idleAgents := w2.agents.filter fun a =>
    a.current_node_id.isSome && (a.last_active_at : Int) < idleCutoff
  let w3 : World := idleAgents.foldl
    (fun acc a =>
      let acc1 := acc.updAgent a.id fun x => { x with current_node_id := none }
      addEvent acc1 now a.id "system"
        (.obj [("message", .str "You drift off into a deep sleep.")]))
    w2
  -- Phase 3: fire "tick" on objects in occupied nodes
  let occupiedNodes := (w3.agents.filterMap fun a => a.current_node_id).dedup
  let w4 : World := occupiedNodes.foldl
    (fun acc nodeId =>
      let insts := List.insertionSort (fun a b => a.created_at ≤ b.created_at)
        (acc.instances.filter fun i =>
          i.container_type == some "instance" && i.container_id == some nodeId &&
          !i.is_void && !i.is_destroyed)
      insts.foldl (fun acc2 inst => (fireInteractions acc2 now inst "tick" none none).1) acc)
    w3
  -- Phase 4: process the action queue in ordinal order
  let actions := List.insertionSort (fun a b => a.id ≤ b.id)
    (w4.actionQueue.filter fun a => a.tick_number ≤ tickNumber)
  let w5 : World := actions.foldl
    (fun acc action =>
      match acc.findAgent action.agent_id with
      | none => { acc with actionQueue := acc.actionQueue.filter fun q => q.id != action.id }
      | some agent =>
        if agent.current_node_id.isNone then
          { acc with actionQueue := acc.actionQueue.filter fun q => q.id != action.id }
        else
          let (acc1, result) := dispatchAction acc now agent action.action action.params shuffle
          let acc2 := addEvent acc1 now agent.id "action_result"
            (.obj [("action", .str action.action), ("action_id", .num action.id),
                   ("result", result)])
          { acc2 with actionQueue := acc2.actionQueue.filter fun q => q.id != action.id })
    w4
  -- Phase 5: clean up old events
  { w5 with events := w5.events.filter fun e =>
      !((e.created_at : Int) < (now : Int) - (EVENT_UNDELIVERED_TTL_MS : Int)) }

end MASH

namespace MASH

/-! ## Observables and run models used by the specification statements -/

/-- The stored `interactions_used_this_tick` of an instance. -/
def counterOf (w : World) (tgt : String) : Option Nat :=
  (w.findInstance tgt).map fun i => i.interactions_used_this_tick

/-- The stored `ap` of an agent. -/
def apOf (w : World) (id : String) : Option Int :=
  (w.findAgent id).map fun a => a.ap

/-- Length of the upward instance-container chain from an id to its root
(top-level, agent-contained, or dangling), `none` when the walk does not
terminate within `fuel` (in particular on a containment cycle). -/
def instChainLen (w : World) : Nat → String → Option Nat
  | 0, _ => none
  | fuel + 1, id =>
    match w.findInstance id with
    | none => some 0
    | some i =>
      match instParentId i with
      | some cid => (instChainLen w fuel cid).map (· + 1)
      | none => some 0

/-- The containment invariant of the spec: every instance's upward walk
terminates (no cycle) — fuel `length + 1` is exhaustive for cycle-free
walks. -/
def AcyclicContainment (w : World) : Prop :=
  ∀ i ∈ w.instances, (instChainLen w (w.instances.length + 1) i.id).isSome

instance : DecidablePred AcyclicContainment := fun w =>
  List.decidableBAll _ w.instances

/-- World transitions that preserve every stored
`interactions_used_this_tick` counter (at every id already present). -/
def CounterPres (w w' : World) : Prop :=
  ∀ tgt c, counterOf w tgt = some c → counterOf w' tgt = some c

/-- One `fire(instance, verb, actor, subject)` invocation, the instance
given by id and loaded from the current store as the runtime callers do. -/
structure FireCall where
  instId : String
  verb : String
  actor : Option AgentR
  subject : Option InstanceR

/-- Run a sequence of `fire` invocations (calls whose instance id is
missing from the store are skipped — the runtime never makes them, since
instance rows are flagged, not deleted). -/
def runFireCalls (now : Nat) : List FireCall → World → World
  | [], w => w
  | c :: rest, w =>
    match w.findInstance c.instId with
    | none => runFireCalls now rest w
    | some inst => runFireCalls now rest (fireInteractionsX w now inst c.verb c.actor c.subject).1

/-- Total number of interaction rules executed on instance `tgt` across a
sequence of `fire` invocations. -/
def execCountOn (now : Nat) (tgt : String) : List FireCall → World → Nat
  | [], _ => 0
  | c :: rest, w =>
    match w.findInstance c.instId with
    | none => execCountOn now tgt rest w
    | some inst =>
      let r := fireInteractionsX w now inst c.verb c.actor c.subject
      (if c.instId == tgt then r.2.2 else 0) + execCountOn now tgt rest r.1

/-- An operation on the event bus: an `addEvent` insertion or a request
(whose envelope is built by `buildResponse`). -/
inductive BusOp where
  | emit (agentId type_ : String) (data : Value) (now : Nat)
  | request (agent : AgentR) (now : Nat)

def runBus : List BusOp → World → World
  | [], w => w
  | .emit a t d n :: rest, w => runBus rest (addEvent w n a t d)
  | .request ag n :: rest, w => runBus rest (buildResponse w n ag).1

/-- The event ids each request's envelope returns, in run order. -/
def returnedIds : List BusOp → World → List (List Nat)
  | [], _ => []
  | .emit a t d n :: rest, w => returnedIds rest (addEvent w n a t d)
  | .request ag n :: rest, w =>
    ((selectEvents w ag.id).map fun e => e.id) :: returnedIds rest (buildResponse w n ag).1

/-- Event-store well-formedness maintained by the runtime: rows are in
strictly increasing ordinal order (append-only autoincrement) and below
the autoincrement supply. -/
def EventsWF (w : World) : Prop :=
  w.events.Pairwise (fun a b => a.id < b.id) ∧ ∀ e ∈ w.events, e.id < w.nextEventId

instance : IsTotal EventR fun a b => a.id ≤ b.id :=
  ⟨fun a b => Nat.le_total a.id b.id⟩

instance : IsTrans EventR fun a b => a.id ≤ b.id :=
  ⟨fun _ _ _ hab hbc => Nat.le_trans hab hbc⟩

instance (w : World) : Decidable (EventsWF w) := by
  unfold EventsWF
  exact inferInstance

/-- An event id that is gone for good: absent from the store and below the
autoincrement supply, so no later insertion can recreate it. -/
def DeadEventId (w : World) (i : Nat) : Prop :=
  i ∉ w.events.map (fun e => e.id) ∧ i < w.nextEventId

end MASH

namespace MASH

/-! ## Concrete fixtures used in counterexamples and witnesses -/

/-- C1 failing input: an agent that bought 18 AP this tick, about to
cross a tick boundary. -/
def fxC1Agent : AgentR :=
  { id := "a1", username := "alice", home_node_id := "h1", current_node_id := some "n1",
    ap := 0, purchased_ap_this_tick := 18 }

def fxC1Node : InstanceR := { id := "n1", type := "node" }

def fxC1Thing : InstanceR :=
  { id := "i1", type := "thing", container_type := some "instance", container_id := some "n1",
    interactions_used_this_tick := 3 }

def fxC1 : World := { agents := [fxC1Agent], instances := [fxC1Node, fxC1Thing] }

/-- C2 fixture: owner `o1` of template `t1` whose effective `delete` rule
is `"none"`; the template carries a `perm self` rule granting `delete` to
`eve`. -/
def fxC2Owner : AgentR := { id := "o1", username := "owner", home_node_id := "nh" }

def fxC2Eve : AgentR :=
  { id := "e1", username := "eve", home_node_id := "nh2", current_node_id := some "n1" }

def fxC2Tpl : TemplateR :=
  { id := "t1", owner_id := "o1", type := "thing",
    default_permissions := [("interact", .anyR), ("delete", .noneR)],
    interactions := [{ onV := "zap", doL := [.eff (.permE "self" "delete" (.listR ["eve"]))] }] }

def fxC2Node : InstanceR := { id := "n1", type := "node" }

def fxC2Inst : InstanceR :=
  { id := "i1", template_id := some "t1", type := "thing",
    container_type := some "instance", container_id := some "n1" }

def fxC2 : World :=
  { agents := [fxC2Owner, fxC2Eve], templates := [fxC2Tpl], instances := [fxC2Node, fxC2Inst] }

def fxC2After : World := (processCustomVerb fxC2 5 fxC2Eve "zap" { target_id := some "i1" }).1

/-- C3 fixture (cycle): template `t2` carries `move container self`;
instance `a1c` sits inside `b1`, which sits inside node `n1`. -/
def fxC3Tpl : TemplateR :=
  { id := "t2", owner_id := "o1", type := "thing",
    default_permissions := [("interact", .anyR), ("contain", .anyR)],
    interactions := [{ onV := "zap", doL := [.eff (.moveE "container" "self")] }] }

def fxC3B : InstanceR :=
  { id := "b1", template_id := some "t2", type := "thing",
    container_type := some "instance", container_id := some "n1" }

def fxC3A : InstanceR :=
  { id := "a1c", template_id := some "t2", type := "thing",
    container_type := some "instance", container_id := some "b1" }

def fxC3 : World :=
  { agents := [fxC2Owner, fxC2Eve], templates := [fxC3Tpl],
    instances := [fxC2Node, fxC3B, fxC3A] }

def fxC3After : World := (processCustomVerb fxC3 5 fxC2Eve "zap" { target_id := some "a1c" }).1

/-- C3 fixture (depth): a 2-deep stack in the inventory dropped into a
container whose own chain has length 4. -/
def fxC3Agent : AgentR :=
  { id := "g1", username := "gail", home_node_id := "nh", current_node_id := some "n1" }

def fxC3DropTpl : TemplateR :=
  { id := "t1", owner_id := "g1", type := "thing",
    default_permissions := [("contain", .anyR)] }

def fxC3T (i ct cid : String) : InstanceR :=
  { id := i, template_id := some "t1", type := "thing",
    container_type := some ct, container_id := some cid }

def fxC3Drop : World :=
  { agents := [fxC3Agent], templates := [fxC3DropTpl],
    instances := [fxC2Node,
      fxC3T "p1" "instance" "n1", fxC3T "p2" "instance" "p1",
      fxC3T "p3" "instance" "p2", fxC3T "p4" "instance" "p3",
      fxC3T "A" "agent" "g1", fxC3T "B" "instance" "A"] }

def fxC3DropAfter : World :=
  (processDrop fxC3Drop 7 fxC3Agent { target_id := some "A", into := some "p4" }).1

/-- C4 witness fixture: from `c1`, candidates are `x1` (interact `"none"`)
and `x2` (interact `"any"`); `hn` is a home node. -/
def fxC4Agent : AgentR :=
  { id := "r1", username := "rae", home_node_id := "hn", current_node_id := some "c1" }

def fxC4Node (i : String) (p : Perms) : InstanceR := { id := i, type := "node", permissions := p }

def fxC4 : World :=
  { agents := [fxC4Agent],
    instances := [fxC4Node "c1" [], fxC4Node "hn" [],
      fxC4Node "x1" [("interact", .noneR)], fxC4Node "x2" [("interact", .anyR)]] }

/-- C5/C6 witness fixture: a template with five matching `tick` rules and
one with a nested `deny`. -/
def fxC5Rule (f : String) : InteractionR :=
  { onV := "tick", doL := [.eff (.setE ("self." ++ f) (.num 1))] }

def fxC5Tpl : TemplateR :=
  { id := "t1", owner_id := "a1", type := "thing",
    interactions := [fxC5Rule "f1", fxC5Rule "f2", fxC5Rule "f3", fxC5Rule "f4", fxC5Rule "f5"] }

def fxC5Thing : InstanceR :=
  { id := "i1", template_id := some "t1", type := "thing",
    container_type := some "instance", container_id := some "n1" }

def fxC5Agent : AgentR :=
  { id := "a1", username := "alice", home_node_id := "n1", current_node_id := some "n1" }

def fxC5 : World :=
  { agents := [fxC5Agent], templates := [fxC5Tpl], instances := [fxC2Node, fxC5Thing] }

def fxC5Calls : List FireCall :=
  [⟨"i1", "tick", none, none⟩, ⟨"i1", "tick", none, none⟩]

/-- One `tick` call on `fxC5` drives the `i1` counter to the cap
(`MAX_INTERACTIONS_PER_TICK` of the five matching rules execute). -/
def fxC5Cap : World := runFireCalls 0 [⟨"i1", "tick", none, none⟩] fxC5

/-- The capped `i1` row as stored in `fxC5Cap`. -/
def fxC5CapInst : InstanceR := (fxC5Cap.findInstance "i1").getD fxC5Thing

/-- C7 fixture: nodes `n1`, `n2`; `l1` goes `n1 → n2`; `l2` is a void link
in `n2`. The agent starts at `n1` with MAX_AP. -/
def fxC7N1 : InstanceR := { id := "n1", type := "node" }
def fxC7N2 : InstanceR := { id := "n2", type := "node" }

def fxC7L1 : InstanceR :=
  { id := "l1", type := "link", container_type := some "instance", container_id := some "n1",
    fields := [("destination", .str "n2")] }

def fxC7L2 : InstanceR :=
  { id := "l2", type := "link", container_type := some "instance", container_id := some "n2",
    is_void := true, fields := [("destination", .str "n1")] }

def fxC7Agent : AgentR :=
  { id := "a1", username := "alice", home_node_id := "nh", current_node_id := some "n1",
    ap := MAX_AP }

def fxC7 : World := { agents := [fxC7Agent], instances := [fxC7N1, fxC7N2, fxC7L1, fxC7L2] }

def fxC7Params : ParamsR := { via := some ["l1", "l2"] }

/-- The full pipeline of scenario 4: debit at request entry, enqueue for
the next tick, then the tick processes the travel. -/
def fxC7Debited : World := (postActionDebit fxC7 "a1" (actionApCost "travel" fxC7Params)).1

def fxC7Queued : World := (enqueueAction fxC7Debited 100 "a1" "travel" fxC7Params 1).1

def fxC7Ticked : World := processTick fxC7Queued 10000 id

/-- C7 amended-claim witness fixtures: link `l3` in `n1` carries a
`travel → deny` rule; `l4` in `n1` has no destination field. -/
def fxC7DT : TemplateR :=
  { id := "td", owner_id := "a1", type := "link",
    interactions := [{ onV := "travel", doL := [.eff .denyE] }] }

def fxC7L3 : InstanceR :=
  { id := "l3", template_id := some "td", type := "link",
    container_type := some "instance", container_id := some "n1",
    fields := [("destination", .str "n2")] }

def fxC7L4 : InstanceR :=
  { id := "l4", type := "link", container_type := some "instance", container_id := some "n1" }

def fxC7W : World :=
  { agents := [fxC7Agent], templates := [fxC7DT], instances := [fxC7N1, fxC7N2, fxC7L3, fxC7L4] }

/-- The store after the denying `travel` fire on `l3` (its per-tick counter
advanced by the executed rule). -/
def fxC7W1 : World := (fireInteractions fxC7W 0 fxC7L3 "travel" (some fxC7Agent) none).1

/-- C8 witness fixture. -/
def fxC8Agent : AgentR := { id := "a1", username := "alice", home_node_id := "h1" }

def fxC8 : World :=
  { agents := [fxC8Agent],
    events := [⟨1, "a1", "system", .null, 0⟩, ⟨2, "a1", "chat", .null, 0⟩],
    nextEventId := 3 }

def fxC8Ops : List BusOp :=
  [.request fxC8Agent 10, .emit "a1" "system" .null 11, .request fxC8Agent 12]

/-- C8 selection-order witness fixture: 201 pending events for `a1`, so
the 201st (highest ordinal) misses the 200-row envelope. -/
def fxC8BigLast : EventR := ⟨201, "a1", "system", .null, 0⟩

def fxC8Big : World :=
  { agents := [fxC8Agent],
    events := ((List.range 200).map fun k => ⟨k + 1, "a1", "system", .null, 0⟩) ++ [fxC8BigLast],
    nextEventId := 202 }

/-- C9 witness fixture. -/
def fxC9Agent : AgentR :=
  { id := "a1", username := "alice", home_node_id := "h1", ap := 4,
    purchased_ap_this_tick := 18 }

def fxC9 : World := { agents := [fxC9Agent] }

/-- C10 witness fixture: a void instance. -/
def fxC10Inst : InstanceR := { id := "v1", type := "thing", is_void := true }

/-- C3 amended-claim witness fixtures: a node with open `contain`, a
thing `T` in the node, a destination `D` directly in the inventory, and a
5-deep pile `p1..p5` for the failing drop. -/
def fxC3Node : InstanceR :=
  { id := "n1", type := "node", permissions := [("contain", .anyR), ("interact", .anyR)] }

def fxC3TakeT : InstanceR :=
  { id := "T", template_id := some "t1", type := "thing",
    container_type := some "instance", container_id := some "n1" }

def fxC3TakeD : InstanceR :=
  { id := "D", template_id := some "t1", type := "thing",
    container_type := some "agent", container_id := some "g1" }

def fxC3Take : World :=
  { agents := [fxC3Agent], templates := [fxC3DropTpl],
    instances := [fxC3Node, fxC3TakeT, fxC3TakeD] }

def fxC3Drop2 : World :=
  { agents := [fxC3Agent], templates := [fxC3DropTpl],
    instances := [fxC3Node,
      fxC3T "p1" "instance" "n1", fxC3T "p2" "instance" "p1",
      fxC3T "p3" "instance" "p2", fxC3T "p4" "instance" "p3",
      fxC3T "p5" "instance" "p4",
      fxC3T "A" "agent" "g1", fxC3T "B" "instance" "A"] }

/-- C2 amended-claim witness fixtures: a second instance of `t1` as the
subject, and a world whose template grants `edit` to anyone but leaves
`perms` at the `"owner"` default. -/
def fxC2Inst2 : InstanceR :=
  { id := "i2", template_id := some "t1", type := "thing",
    container_type := some "instance", container_id := some "n1" }

def fxC2Ctx : Ctx :=
  { self := fxC2Inst, actor := some fxC2Eve, subject := some fxC2Inst2,
    template := fxC2Tpl, denied := false }

def fxC2W2 : World :=
  { agents := [fxC2Owner, fxC2Eve], templates := [fxC2Tpl],
    instances := [fxC2Node, fxC2Inst, fxC2Inst2] }

def fxC2TplB : TemplateR :=
  { id := "t1b", owner_id := "o1", type := "thing",
    default_permissions := [("edit", .anyR)] }

def fxC2InstB : InstanceR := { id := "ib", template_id := some "t1b", type := "thing" }

def fxC2WB : World :=
  { agents := [fxC2Owner, fxC2Eve], templates := [fxC2TplB], instances := [fxC2InstB] }

end MASH

namespace MASH

/-! ## Store lemmas -/

theorem find?_map_idPres {α : Type} (idOf : α → String) (tgt : String) (g : α → α)
    (hg : ∀ a, idOf (g a) = idOf a) :
    ∀ l : List α,
      (l.map g).find? (fun a => idOf a == tgt) =
        (l.find? fun a => idOf a == tgt).map g := by
  intro l
  induction l with
  | nil => rfl
  | cons a t ih =>
    cases htgt : (idOf a == tgt) with
    | true =>
      have : (idOf (g a) == tgt) = true := by rw [hg]; exact htgt
      simp only [List.map_cons, List.find?_cons, this, htgt]
      rfl
    | false =>
      have : (idOf (g a) == tgt) = false := by rw [hg]; exact htgt
      simp only [List.map_cons, List.find?_cons, this, htgt]
      exact ih

theorem findAgent_updAgent (w : World) (id tgt : String) (f : AgentR → AgentR)
    (hf : ∀ a, (f a).id = a.id) :
    (w.updAgent id f).findAgent tgt =
      (w.findAgent tgt).map fun a => if a.id == id then f a else a := by
  refine find?_map_idPres (fun a => a.id) tgt _ ?_ w.agents
  intro a
  split
  · exact hf a
  · rfl

theorem findInstance_updInstance (w : World) (id tgt : String) (f : InstanceR → InstanceR)
    (hf : ∀ i, (f i).id = i.id) :
    (w.updInstance id f).findInstance tgt =
      (w.findInstance tgt).map fun i => if i.id == id then f i else i := by
  refine find?_map_idPres (fun i => i.id) tgt _ ?_ w.instances
  intro i
  split
  · exact hf i
  · rfl

/-! ## C1 -/

/-- C1: the claim says `processTick` resets every agent's
`purchased_ap_this_tick` to 0 alongside the AP reset. On the failing input
(an agent with `purchased_ap_this_tick = 18` crossing a tick boundary) the
tick resets `ap` to `MAX_AP = 4` and the instance's
`interactions_used_this_tick` to 0, but leaves `purchased_ap_this_tick`
at 18 — the reset claimed by the spec (and implied by API.md's per-tick
buy cap) is absent from the source. -/
theorem C1_tick_does_not_reset_purchased_ap :
    ((processTick fxC1 1000 id).findAgent "a1").map
        (fun a => (a.ap, a.purchased_ap_this_tick)) = some (4, 18) ∧
    ((processTick fxC1 1000 id).findInstance "i1").map
        (fun i => i.interactions_used_this_tick) = some 0 ∧
    (18 : Int) ≠ 0 := by
  refine ⟨by decide, by decide, by decide⟩

theorem findAgent_updAgent_self (w : World) (id : String) (f : AgentR → AgentR)
    (fresh : AgentR) (h : w.findAgent id = some fresh) (hf : ∀ a, (f a).id = a.id) :
    (w.updAgent id f).findAgent id = some (f fresh) := by
  rw [findAgent_updAgent w id id f hf, h]
  have h' : List.find? (fun a => a.id == id) w.agents = some fresh := h
  have hfid := List.find?_some h'
  simp only [Option.map_some']
  rw [if_pos hfid]

/-! ## C9 -/

/-- C9: `buy_ap` clamps the purchased count into `[1, 10]`, errors exactly
when `purchased_ap_this_tick + count` would exceed `MAX_BUY_AP_PER_TICK`
(leaving the world — hence `ap` and `purchased_ap_this_tick` — unchanged),
and on success raises both `ap` and `purchased_ap_this_tick` by exactly
`count`. -/
theorem C9_buy_ap_cap (w : World) (agent fresh : AgentR) (params : ParamsR)
    (hfind : w.findAgent agent.id = some fresh) :
    (1 ≤ buyApCount params.count ∧ buyApCount params.count ≤ 10) ∧
    (fresh.purchased_ap_this_tick + buyApCount params.count > MAX_BUY_AP_PER_TICK →
      handleBuyAp w agent params =
        (w, .ok (errV ("can buy at most " ++ toString MAX_BUY_AP_PER_TICK ++ " AP per tick")))) ∧
    (fresh.purchased_ap_this_tick + buyApCount params.count ≤ MAX_BUY_AP_PER_TICK →
      (handleBuyAp w agent params).2 = .ok (.obj [("purchased", .num (buyApCount params.count))]) ∧
      (handleBuyAp w agent params).1.findAgent agent.id =
        some { fresh with
               ap := fresh.ap + buyApCount params.count,
               purchased_ap_this_tick :=
                 fresh.purchased_ap_this_tick + buyApCount params.count }) := by
  refine ⟨⟨le_max_left _ _, max_le (by norm_num) (min_le_left _ _)⟩, ?_, ?_⟩
  · intro hcap
    unfold handleBuyAp
    rw [hfind]
    simp only [if_pos hcap]
  · intro hcap
    have hnot : ¬(fresh.purchased_ap_this_tick + buyApCount params.count >
        MAX_BUY_AP_PER_TICK) := not_lt.mpr hcap
    constructor
    · unfold handleBuyAp
      rw [hfind]
      simp only [if_neg hnot]
    · unfold handleBuyAp
      rw [hfind]
      simp only [if_neg hnot]
      exact findAgent_updAgent_self w agent.id _ fresh hfind (fun a => rfl)

/-- Witness for C9 at a concrete input: the agent already bought 18 AP
this tick, so buying 3 fails and buying 2 succeeds. -/
theorem C9_buy_ap_cap_witness :
    handleBuyAp fxC9 fxC9Agent { count := some (.num 3) } =
      (fxC9, .ok (errV ("can buy at most " ++ toString MAX_BUY_AP_PER_TICK ++ " AP per tick"))) ∧
    (handleBuyAp fxC9 fxC9Agent { count := some (.num 2) }).2 =
      .ok (.obj [("purchased", .num 2)]) := by
  have h := C9_buy_ap_cap fxC9 fxC9Agent fxC9Agent { count := some (.num 3) } rfl
  have h2 := C9_buy_ap_cap fxC9 fxC9Agent fxC9Agent { count := some (.num 2) } rfl
  exact ⟨h.2.1 (by decide), (h2.2.2 (by decide)).1⟩

/-! ## C10 -/

theorem fire_inert (w : World) (now : Nat) (inst : InstanceR) (verb : String)
    (actor : Option AgentR) (subject : Option InstanceR)
    (h : inst.is_void = true ∨ inst.is_destroyed = true ∨ inst.template_id = none) :
    fireInteractionsX w now inst verb actor subject = (w, false, 0) := by
  unfold fireInteractionsX
  rcases h with h | h | h
  · simp [h]
  · simp [h]
  · by_cases hv : (inst.is_void || inst.is_destroyed) = true
    · simp [hv]
    · simp [hv, h]

/-- C10: firing any verb on a void, destroyed, or templateless instance
returns `false` (not denied) and leaves the world untouched — no state
change, no event, no broadcast; and the `random_link` / `link_index`
system instances created by `createHomeNode` are templateless, so they can
never deny or fire an interaction. -/
theorem C10_system_instances_inert :
    (∀ (w : World) (now : Nat) (inst : InstanceR) (verb : String) (actor : Option AgentR)
        (subject : Option InstanceR),
      inst.is_void = true ∨ inst.is_destroyed = true ∨ inst.template_id = none →
      fireInteractionsX w now inst verb actor subject = (w, false, 0) ∧
      fireInteractions w now inst verb actor subject = (w, false)) ∧
    (∀ (w : World) (now : Nat) (aid un : String),
      ∃ home rl li,
        (createHomeNode w now aid un).1.instances = w.instances ++ [home, rl, li] ∧
        rl.template_id = none ∧ rl.system_type = some "random_link" ∧
        li.template_id = none ∧ li.system_type = some "link_index" ∧
        ∀ (w2 : World) (n2 : Nat) (verb : String) (actor : Option AgentR)
            (subject : Option InstanceR),
          fireInteractions w2 n2 rl verb actor subject = (w2, false) ∧
          fireInteractions w2 n2 li verb actor subject = (w2, false)) := by
  have hfi : ∀ (w : World) (now : Nat) (inst : InstanceR) (verb : String)
      (actor : Option AgentR) (subject : Option InstanceR),
      inst.is_void = true ∨ inst.is_destroyed = true ∨ inst.template_id = none →
      fireInteractions w now inst verb actor subject = (w, false) := by
    intro w now inst verb actor subject h
    unfold fireInteractions
    rw [fire_inert w now inst verb actor subject h]
  refine ⟨fun w now inst verb actor subject h =>
    ⟨fire_inert w now inst verb actor subject h, hfi w now inst verb actor subject h⟩, ?_⟩
  intro w now aid un
  refine ⟨_, _, _, rfl, rfl, rfl, rfl, rfl, ?_⟩
  intro w2 n2 verb actor subject
  exact ⟨hfi w2 n2 _ verb actor subject (Or.inr (Or.inr rfl)),
         hfi w2 n2 _ verb actor subject (Or.inr (Or.inr rfl))⟩

/-- Witness for C10: a concrete void instance fires to `(w, false, 0)`. -/
theorem C10_system_instances_inert_witness :
    fireInteractionsX fxC8 7 fxC10Inst "zap" none none = (fxC8, false, 0) := by
  exact (C10_system_instances_inert.1 fxC8 7 fxC10Inst "zap" none none
    (Or.inl (by decide))).1

end MASH

namespace MASH

/-! ## C2 -/

/-- C2 counterexample: on `fxC2` the template owner does not hold `delete`
on instance `i1` (effective rule `"none"`), yet firing the template's
`perm self delete ["list",["eve"]]` rule (a reachable `zap` custom verb)
writes that override; afterwards `eve` holds `delete` on `i1` while the
template owner still does not — the override grants an agent access the
template owner lacks, and the rule written was not one the owner held. -/
theorem C2_perm_escalation_counterexample :
    checkPermission fxC2 fxC2Owner fxC2Inst "delete" = false ∧
    (fxC2After.findInstance "i1").map
        (fun i => (checkPermission fxC2After fxC2Eve i "delete",
                   checkPermission fxC2After fxC2Owner i "delete")) = some (true, false) := by
  exact ⟨by decide, by decide⟩

/-- C2 amended: the DSL `perm` effect targeting an instance *other than*
`self` never writes unless the template owner exists and holds both
`perms` on the target and the permission being granted (so that path is
escalation-safe); `perm` on `self` bypasses these checks entirely (the
counterexample), and the `edit` action's permission merge is guarded only
by the *acting agent* holding `edit` and `perms` on the instance — it
performs no owner-escalation check. -/
theorem C2_perm_escalation_amended :
    (∀ (w : World) (now : Nat) (ctx : Ctx) (ref permKey : String) (val : RuleV)
        (tid : String) (target : InstanceR) (ctx1 : Ctx),
      resolveRef w now ctx ref = (ctx1, some (.str tid)) →
      tid ≠ "" →
      w.findInstance tid = some target →
      tid ≠ ctx1.self.id →
      (checkEffectPermission w ctx1 tid "perms" = false ∨
        ∃ owner, w.findAgent ctx1.template.owner_id = some owner ∧
          checkPermission w owner target permKey = false) →
      executeEffect w now ctx (.permE ref permKey val) = (w, ctx1)) ∧
    (∀ (w : World) (agent : AgentR) (instanceId : String) (params : ParamsR)
        (inst : InstanceR),
      w.findInstance instanceId = some inst →
      inst.is_void = false → inst.is_destroyed = false →
      checkPermission w agent inst "edit" = true →
      params.changes_permissions.isSome →
      checkPermission w agent inst "perms" = false →
      editInstance w agent instanceId params = (w, errV "no perms permission")) := by
  constructor
  · intro w now ctx ref permKey val tid target ctx1 hres htid hfind hne hguard
    have htr : Value.truthy (.str tid) = true := by
      simp [Value.truthy, htid]
    have hne' : (tid != ctx1.self.id) = true := by
      simp [hne]
    simp only [executeEffect]
    rw [hres]
    simp only [htr, Bool.not_true, Bool.false_eq_true, if_false, hfind, hne', if_true]
    rcases hguard with hg | ⟨owner, ho, hcp⟩
    · simp [hg]
    · by_cases hep : checkEffectPermission w ctx1 tid "perms" = true
      · simp [hep, ho, hcp]
      · simp [Bool.eq_false_iff.mpr hep]
  · intro w agent instanceId params inst hfind hv hd hedit hp hperms
    unfold editInstance
    rw [hfind]
    simp [hv, hd, hedit, hp, hperms]

/-- Witness for the amended C2 at concrete inputs: a `perm subject delete`
effect whose template owner lacks `delete` leaves the world unchanged, and
an `edit` permission merge by an agent with `edit` but not `perms` is
rejected. -/
theorem C2_perm_escalation_amended_witness :
    executeEffect fxC2W2 0 fxC2Ctx (.permE "subject" "delete" .anyR) = (fxC2W2, fxC2Ctx) ∧
    editInstance fxC2WB fxC2Eve "ib"
        { changes_permissions := some [("delete", .anyR)], changes_present := true } =
      (fxC2WB, errV "no perms permission") := by
  constructor
  · exact C2_perm_escalation_amended.1 fxC2W2 0 fxC2Ctx "subject" "delete" .anyR "i2"
      fxC2Inst2 fxC2Ctx rfl (by decide) rfl (by decide)
      (Or.inr ⟨fxC2Owner, rfl, by decide⟩)
  · exact C2_perm_escalation_amended.2 fxC2WB fxC2Eve "ib"
      { changes_permissions := some [("delete", .anyR)], changes_present := true }
      fxC2InstB rfl rfl rfl (by decide) (by decide) (by decide)

end MASH



namespace MASH

/-! ## C3 -/

theorem instParentId_eq_some (c : InstanceR) (cid : String) :
    instParentId c = some cid ↔
      c.container_type = some "instance" ∧ c.container_id = some cid ∧ (cid == "") = false := by
  unfold instParentId
  by_cases hct : (c.container_type == some "instance") = true
  · have hct' : c.container_type = some "instance" := by simpa using hct
    rcases hci : c.container_id with _ | ci
    · simp [hct, hci]
    · by_cases he : (ci == "") = true
      · simp only [hct, if_true, hci, he, Bool.true_eq_false, if_true]
        constructor
        · intro h; exact absurd h (by simp)
        · intro ⟨_, h2, h3⟩
          obtain rfl : ci = cid := by simpa using h2
          rw [he] at h3
          exact absurd h3 (by simp)
      · have he' : (ci == "") = false := by simpa using he
        simp only [hct, if_true, hci, he', Bool.false_eq_true, if_false, Option.some.injEq]
        constructor
        · intro h; subst h; exact ⟨hct', rfl, he'⟩
        · intro ⟨_, h2, _⟩
          exact (by simpa using h2)
  · have hct' : c.container_type ≠ some "instance" := by simpa using hct
    simp [hct, hct']

theorem checkDepthAux_chain (w : World) :
    ∀ (k : Nat) (cid : String), checkContainmentDepthAux w k cid = true →
      ∃ n, n < k ∧ instChainLen w (k + 1) cid = some n := by
  intro k
  induction k with
  | zero =>
    intro cid h
    simp [checkContainmentDepthAux] at h
  | succ k ih =>
    intro cid h
    unfold checkContainmentDepthAux at h
    split at h
    · rename_i heq
      exact ⟨0, by omega, by unfold instChainLen; rw [heq]⟩
    · rename_i container heq
      split at h
      · rename_i cid2 heq2
        obtain ⟨n, hn, hchain⟩ := ih cid2 h
        refine ⟨n + 1, by omega, ?_⟩
        unfold instChainLen
        rw [heq]
        dsimp only
        rw [heq2]
        dsimp only
        rw [hchain]
        rfl
      · rename_i heq2
        refine ⟨0, by omega, ?_⟩
        unfold instChainLen
        rw [heq]
        dsimp only
        rw [heq2]

theorem find?_append_left {α : Type} (l₁ l₂ : List α) (p : α → Bool) (a : α)
    (h : l₁.find? p = some a) : (l₁ ++ l₂).find? p = some a := by
  rw [List.find?_append, h]
  rfl

theorem find?_append_right_none {α : Type} (l₁ l₂ : List α) (p : α → Bool)
    (h : l₁.find? p = none) : (l₁ ++ l₂).find? p = l₂.find? p := by
  rw [List.find?_append, h]
  rfl

/-- Appending a fresh instance that nothing points to does not change the
chain length of other ids. -/
theorem instChainLen_append (w w' : World) (newInst : InstanceR)
    (hw' : w'.instances = w.instances ++ [newInst])
    (hptr : ∀ i ∈ w.instances, i.container_id ≠ some newInst.id) :
    ∀ (f : Nat) (x : String), x ≠ newInst.id →
      instChainLen w' f x = instChainLen w f x := by
  intro f
  induction f with
  | zero => intro x _; rfl
  | succ f ih =>
    intro x hx
    have hfind : w'.findInstance x = w.findInstance x := by
      show w'.instances.find? (fun i => i.id == x) = w.instances.find? (fun i => i.id == x)
      rw [hw']
      cases hfx : w.instances.find? (fun i => i.id == x) with
      | some i => exact find?_append_left _ _ _ _ hfx
      | none =>
        rw [find?_append_right_none _ _ _ hfx]
        have hne : (newInst.id == x) = false := by
          simp only [beq_eq_false_iff_ne, ne_eq]
          exact fun hh => hx hh.symm
        simp [List.find?, hne]
    unfold instChainLen
    rw [hfind]
    cases hfx : w.findInstance x with
    | none => rfl
    | some i =>
      have hmem : i ∈ w.instances := by
        have hfx' : List.find? (fun j => j.id == x) w.instances = some i := hfx
        exact List.mem_of_find?_eq_some hfx'
      dsimp only
      cases hpar : instParentId i with
      | none => rfl
      | some cid =>
        obtain ⟨_, hci, _⟩ := (instParentId_eq_some i cid).mp hpar
        have hcidne : cid ≠ newInst.id := by
          intro hcc
          exact hptr i hmem (by rw [← hcc]; exact hci)
        dsimp only
        rw [ih cid hcidne]

end MASH

namespace MASH

/-- C3 counterexample. (1) On `fxC3` (acyclic) the template's
`move container self` rule — fired via a reachable custom verb — re-parents
`b1` into its own child `a1c`, producing a containment cycle: the claim
that the DSL `move` effect preserves acyclicity is false. (2) On
`fxC3Drop`, the queued `drop A into p4` succeeds although `A` carries a
nested item `B`; afterwards `B`'s path to its root node has length 6,
violating the claimed bound MAX_CONTAINMENT_DEPTH = 5. -/
theorem C3_containment_counterexample :
    AcyclicContainment fxC3 ∧
    ¬ AcyclicContainment fxC3After ∧
    ((fxC3After.findInstance "b1").map (fun i => i.container_id) = some (some "a1c") ∧
     (fxC3After.findInstance "a1c").map (fun i => i.container_id) = some (some "b1")) ∧
    (processDrop fxC3Drop 7 fxC3Agent { target_id := some "A", into := some "p4" }).2 =
      .obj [("dropped", .bool true), ("thing_id", .str "A")] ∧
    instChainLen fxC3DropAfter 20 "B" = some 6 := by
  refine ⟨by decide, by decide, ⟨by decide, by decide⟩, by rfl, by decide⟩

end MASH

namespace MASH

/-- C3 amended: the queued `create`/`take`/`drop` actions guard each
explicit re-parent or creation with `checkContainmentDepth` on the
destination container — a passing guard bounds the destination's upward
chain by 4, so the directly created instance's root path is at most
MAX_CONTAINMENT_DEPTH = 5, and a failing guard rejects the action with
`containment depth exceeded`. The DSL `take`/`give`/`move`/`create`
effects perform no such check (and nested contents of a moved instance
are not bounded), which is what the counterexample exhibits. -/
theorem C3_containment_amended :
    (∀ (w : World) (cid : String),
      checkContainmentDepth w cid = true →
      ∃ n, n < MAX_CONTAINMENT_DEPTH ∧
        instChainLen w (MAX_CONTAINMENT_DEPTH + 1) cid = some n) ∧
    (∀ (w : World) (now : Nat) (agent : AgentR) (params : ParamsR) (tid : String)
        (template : TemplateR) (cid : String) (container : InstanceR),
      params.template_id = some tid → tid ≠ "" →
      w.findTemplate tid = some template →
      template.owner_id = agent.id →
      (template.type == "node") = false →
      params.container_id = some cid → cid ≠ "" →
      w.findInstance cid = some container →
      container.is_void = false → container.is_destroyed = false →
      checkPermission w agent container "contain" = true →
      (checkContainmentDepth w cid = false →
        createInstance w now agent params = (w, errV "containment depth exceeded")) ∧
      (checkContainmentDepth w cid = true →
        (∀ i ∈ w.instances, i.id ≠ genId w.nextGen) →
        (∀ i ∈ w.instances, i.container_id ≠ some (genId w.nextGen)) →
        (createInstance w now agent params).2 = .obj [("instance_id", .str (genId w.nextGen))] ∧
        ∃ n, n < MAX_CONTAINMENT_DEPTH ∧
          instChainLen w (MAX_CONTAINMENT_DEPTH + 1) cid = some n ∧
          instChainLen (createInstance w now agent params).1 (MAX_CONTAINMENT_DEPTH + 2)
            (genId w.nextGen) = some (n + 1))) ∧
    (∀ (w w1 : World) (now : Nat) (agent : AgentR) (params : ParamsR) (tid into cn : String)
        (thing dest parentc : InstanceR),
      params.target_id = some tid → tid ≠ "" →
      params.into = some into → into ≠ "" →
      w.instances.find? (fun i => i.id == tid && i.type == "thing") = some thing →
      thing.is_void = false → thing.is_destroyed = false →
      agent.current_node_id = some cn →
      getContainingNode w (w.instances.length + 1) thing = some cn →
      checkPermission w agent thing "contain" = true →
      thing.container_type = some "instance" → thing.container_id = some cn →
      w.findInstance cn = some parentc →
      checkPermission w agent parentc "contain" = true →
      fireInteractions w now thing "take" (some agent) none = (w1, false) →
      w1.instances.find? (fun i => i.id == into && i.type == "thing") = some dest →
      w1.findInstance into = some dest →
      dest.is_void = false → dest.is_destroyed = false →
      dest.container_type = some "agent" → dest.container_id = some agent.id →
      checkPermission w1 agent dest "contain" = true →
      checkContainmentDepth w1 into = true ∧
      (processTake w now agent params).2 =
        .obj [("taken", .bool true), ("thing_id", .str tid)]) ∧
    (∀ (w w1 : World) (now : Nat) (agent : AgentR) (params : ParamsR) (tid into cn : String)
        (thing dest : InstanceR),
      params.target_id = some tid → tid ≠ "" →
      params.into = some into → into ≠ "" →
      w.instances.find? (fun i => i.id == tid && i.type == "thing") = some thing →
      thing.is_void = false → thing.is_destroyed = false →
      isInAgentInventory w (w.instances.length + 1) thing agent.id = true →
      fireInteractions w now thing "drop" (some agent) none = (w1, false) →
      w1.findInstance into = some dest →
      dest.is_void = false → dest.is_destroyed = false →
      checkPermission w1 agent dest "contain" = true →
      agent.current_node_id = some cn →
      getContainingNode w1 (w1.instances.length + 1) dest = some cn →
      checkContainmentDepth w1 into = false →
      processDrop w now agent params = (w1, errV "containment depth exceeded")) := by
  refine ⟨?_, ?_, ?_, ?_⟩
  · intro w cid h
    exact checkDepthAux_chain w MAX_CONTAINMENT_DEPTH cid h
  · intro w now agent params tid template cid container ht htid htpl howner htype hcid
      hcidne hfc hv hd hperm
    have htid' : (tid == "") = false := by simp [htid]
    have hcidne' : (cid == "") = false := by simp [hcidne]
    have howner' : (template.owner_id != agent.id) = false := by simp [howner]
    constructor
    · intro hdepth
      unfold createInstance
      rw [ht]
      simp only [htid', Bool.false_eq_true, if_false, htpl, howner', htype, hcid, hcidne',
        hfc, hv, hd, hperm, hdepth, Bool.not_true, Bool.or_self, if_true, Bool.not_false]
    · intro hdepth hfresh hptr
      obtain ⟨n, hn, hchain⟩ := checkDepthAux_chain w MAX_CONTAINMENT_DEPTH cid hdepth
      have hresult :
          createInstance w now agent params =
            ({ w with
                instances := w.instances ++
                  [{ id := genId w.nextGen, template_id := some template.id,
                     type := template.type,
                     short_description := template.short_description,
                     long_description := template.long_description,
                     fields := mergeF template.fields (params.fields.getD []),
                     permissions := [],
                     container_type := some "instance", container_id := some cid,
                     is_void := false, is_destroyed := false, system_type := none,
                     interactions_used_this_tick := 0, created_at := now }],
                nextGen := w.nextGen + 1 },
             .obj [("instance_id", .str (genId w.nextGen))]) := by
        unfold createInstance
        rw [ht]
        simp only [htid', Bool.false_eq_true, if_false, htpl, howner', htype, hcid, hcidne',
          hfc, hv, hd, hperm, hdepth, Bool.not_true, Bool.or_self, if_true, Bool.not_false,
          if_false]
      refine ⟨by rw [hresult], n, hn, hchain, ?_⟩
      rw [hresult]
      have hcontid : container.id = cid := by
        have hfc' : List.find? (fun i => i.id == cid) w.instances = some container := hfc
        have := List.find?_some hfc'
        simpa using this
      have hcidgen : cid ≠ genId w.nextGen := by
        intro hcc
        have hmem : container ∈ w.instances := List.mem_of_find?_eq_some hfc
        exact hfresh container hmem (by rw [hcontid, hcc])
      have hext := instChainLen_append w
        ({ w with
            instances := w.instances ++
              [{ id := genId w.nextGen, template_id := some template.id,
                 type := template.type,
                 short_description := template.short_description,
                 long_description := template.long_description,
                 fields := mergeF template.fields (params.fields.getD []),
                 permissions := [],
                 container_type := some "instance", container_id := some cid,
                 is_void := false, is_destroyed := false, system_type := none,
                 interactions_used_this_tick := 0, created_at := now }],
            nextGen := w.nextGen + 1 })
        ({ id := genId w.nextGen, template_id := some template.id,
           type := template.type,
           short_description := template.short_description,
           long_description := template.long_description,
           fields := mergeF template.fields (params.fields.getD []),
           permissions := [],
           container_type := some "instance", container_id := some cid,
           is_void := false, is_destroyed := false, system_type := none,
           interactions_used_this_tick := 0, created_at := now })
        rfl hptr
      unfold instChainLen
      have hfgen :
          ({ w with
              instances := w.instances ++
                [{ id := genId w.nextGen, template_id := some template.id,
                   type := template.type,
                   short_description := template.short_description,
                   long_description := template.long_description,
                   fields := mergeF template.fields (params.fields.getD []),
                   permissions := [],
                   container_type := some "instance", container_id := some cid,
                   is_void := false, is_destroyed := false, system_type := none,
                   interactions_used_this_tick := 0, created_at := now }],
              nextGen := w.nextGen + 1 } : World).findInstance (genId w.nextGen) =
            some { id := genId w.nextGen, template_id := some template.id,
                   type := template.type,
                   short_description := template.short_description,
                   long_description := template.long_description,
                   fields := mergeF template.fields (params.fields.getD []),
                   permissions := [],
                   container_type := some "instance", container_id := some cid,
                   is_void := false, is_destroyed := false, system_type := none,
                   interactions_used_this_tick := 0, created_at := now } := by
        show (w.instances ++ [_]).find? _ = _
        rw [find?_append_right_none]
        · exact List.find?_cons_of_pos _ (by simp)
        · rw [List.find?_eq_none]
          intro i hmem
          exact fun hh => hfresh i hmem (by simpa using hh)
      rw [hfgen]
      dsimp only
      have hpar : instParentId
          { id := genId w.nextGen, template_id := some template.id,
            type := template.type,
            short_description := template.short_description,
            long_description := template.long_description,
            fields := mergeF template.fields (params.fields.getD []),
            permissions := [],
            container_type := some "instance", container_id := some cid,
            is_void := false, is_destroyed := false, system_type := none,
            interactions_used_this_tick := 0, created_at := now } = some cid := by
        simp [instParentId, hcidne']
      rw [hpar]
      dsimp only
      rw [hext (MAX_CONTAINMENT_DEPTH + 1) cid hcidgen, hchain]
      rfl
  · intro w w1 now agent params tid into cn thing dest parentc ht htid hinto hintone hthing
      hv hd hcn hnode hperm hctype hcid hfcn hpermc hfire hdest hfind2 hdv hdd hdct hdcid
      hdperm
    have htid' : (tid == "") = false := by simp [htid]
    have hintone' : (into == "") = false := by simp [hintone]
    have hdepth : checkContainmentDepth w1 into = true := by
      unfold checkContainmentDepth checkContainmentDepthAux
      rw [show MAX_CONTAINMENT_DEPTH = 4 + 1 from rfl]
      dsimp only
      rw [hfind2]
      dsimp only
      rw [show instParentId dest = none from by simp [instParentId, hdct]]
    refine ⟨hdepth, ?_⟩
    unfold processTake
    rw [ht]
    simp only [htid', Bool.false_eq_true, if_false, hthing, hv, hd, Bool.or_self,
      hnode, hcn, hperm, Bool.not_true, if_true, if_false, ne_eq, hctype, hcid, hfcn,
      hpermc, hfire, hinto, hintone', hdest, hdv, hdd, hdct, hdcid, hdperm, hdepth,
      Bool.not_false, beq_self_eq_true, Bool.and_self, bne_self_eq_false, ite_self]
  · intro w w1 now agent params tid into cn thing dest ht htid hinto hintone hthing hv hd
      hinv hfire hdest hdv hdd hdperm hcn hnode hdepth
    have htid' : (tid == "") = false := by simp [htid]
    have hintone' : (into == "") = false := by simp [hintone]
    unfold processDrop
    rw [ht]
    simp only [htid', Bool.false_eq_true, if_false, hthing, hv, hd, Bool.or_self,
      hinv, Bool.not_true, if_true, if_false, hfire, hinto, hintone', hdest, hdv, hdd,
      hdperm, hcn, hnode, hdepth, Bool.not_false, beq_self_eq_true, Bool.and_self,
      bne_self_eq_false, ite_self]

end MASH

namespace MASH

/-- Witness for the amended C3 at concrete inputs: the depth guard bound,
a guarded successful `create` into `p2`, a `take` into an inventory
container (whose guard necessarily passes), and a `drop` into the 5-deep
pile `p5` rejected with `containment depth exceeded`. -/
theorem C3_containment_amended_witness :
    (∃ n, n < MAX_CONTAINMENT_DEPTH ∧
      instChainLen fxC3Drop (MAX_CONTAINMENT_DEPTH + 1) "p4" = some n) ∧
    (createInstance fxC3Drop 9 fxC3Agent
        { template_id := some "t1", container_id := some "p2" }).2 =
      .obj [("instance_id", .str (genId fxC3Drop.nextGen))] ∧
    checkContainmentDepth fxC3Take "D" = true ∧
    (processTake fxC3Take 9 fxC3Agent { target_id := some "T", into := some "D" }).2 =
      .obj [("taken", .bool true), ("thing_id", .str "T")] ∧
    processDrop fxC3Drop2 9 fxC3Agent { target_id := some "A", into := some "p5" } =
      (fxC3Drop2, errV "containment depth exceeded") := by
  have h2 := (C3_containment_amended.2.1 fxC3Drop 9 fxC3Agent
    { template_id := some "t1", container_id := some "p2" } "t1" fxC3DropTpl "p2"
    (fxC3T "p2" "instance" "p1") rfl (by decide) rfl rfl (by decide) rfl (by decide)
    rfl rfl rfl (by decide)).2 (by decide) (by decide) (by decide)
  have h3 := C3_containment_amended.2.2.1 fxC3Take fxC3Take 9 fxC3Agent
    { target_id := some "T", into := some "D" } "T" "D" "n1" fxC3TakeT fxC3TakeD fxC3Node
    rfl (by decide) rfl (by decide) rfl rfl rfl rfl (by decide) (by decide) rfl rfl rfl
    (by decide) rfl rfl rfl rfl rfl rfl rfl (by decide)
  have h4 := C3_containment_amended.2.2.2 fxC3Drop2 fxC3Drop2 9 fxC3Agent
    { target_id := some "A", into := some "p5" } "A" "p5" "n1" (fxC3T "A" "agent" "g1")
    (fxC3T "p5" "instance" "p4") rfl (by decide) rfl (by decide) rfl rfl rfl (by decide)
    rfl rfl rfl rfl (by decide) rfl (by decide) (by decide)
  exact ⟨C3_containment_amended.1 fxC3Drop "p4" (by decide), h2.1, h3.1, h3.2, h4⟩

end MASH

namespace MASH

/-! ## C4 -/

theorem randomCandidates_mem (w : World) (exclude : Option String) (node : InstanceR)
    (h : node ∈ randomCandidates w exclude) :
    node ∈ w.instances ∧ node.type = "node" ∧ node.is_void = false ∧
    node.is_destroyed = false ∧ (∀ e, exclude = some e → node.id ≠ e) ∧
    ∀ a ∈ w.agents, a.home_node_id ≠ node.id := by
  rw [randomCandidates, List.mem_filter] at h
  obtain ⟨hmem, hpred⟩ := h
  simp only [Bool.and_eq_true, beq_iff_eq, Bool.not_eq_true'] at hpred
  obtain ⟨⟨⟨⟨htype, hvoid⟩, hdestr⟩, hexc⟩, hhome⟩ := hpred
  refine ⟨hmem, htype, hvoid, hdestr, ?_, ?_⟩
  · intro e he
    rw [he] at hexc
    simpa using hexc
  · intro a ha hh
    have helem : List.elem node.id (w.agents.map fun x => x.home_node_id) = true :=
      List.elem_eq_true_of_mem (List.mem_map.mpr ⟨a, ha, hh⟩)
    simp only [List.contains] at hhome
    rw [helem] at hhome
    exact Bool.noConfusion hhome

theorem getRandomDestination_sound (w : World) (exclude : Option String) (nid : String) :
    ∀ cands : List InstanceR,
      (∀ x ∈ cands, x ∈ randomCandidates w exclude) →
      getRandomDestination w cands = .ok (some nid) →
      ∃ node ∈ w.instances, node.id = nid ∧ node.type = "node" ∧ node.is_void = false ∧
        node.is_destroyed = false ∧ (∀ e, exclude = some e → nid ≠ e) ∧
        (∀ a ∈ w.agents, a.home_node_id ≠ nid) ∧
        getInstancePermission w node "interact" = .anyR ∧
        ∀ agent : AgentR, checkPermission w agent node "interact" = true := by
  intro cands
  induction cands with
  | nil => intro _ h; exact absurd h (by simp [getRandomDestination])
  | cons node rest ih =>
    intro hsub h
    unfold getRandomDestination at h
    cases hrule : getInstancePermission w node "interact" with
    | anyR =>
      rw [hrule] at h
      simp only [evaluateRuleNoAgent] at h
      obtain rfl : node.id = nid := by
        simpa using h
      obtain ⟨hmem, htype, hvoid, hdestr, hexc, hhome⟩ :=
        randomCandidates_mem w exclude node (hsub node (by simp))
      exact ⟨node, hmem, rfl, htype, hvoid, hdestr, hexc, hhome, hrule,
        fun agent => by unfold checkPermission; rw [hrule]; rfl⟩
    | noneR =>
      rw [hrule] at h
      simp only [evaluateRuleNoAgent] at h
      exact ih (fun x hx => hsub x (by simp [hx])) h
    | ownerR => rw [hrule] at h; exact absurd h (by simp [evaluateRuleNoAgent])
    | nodeR => rw [hrule] at h; exact absurd h (by simp [evaluateRuleNoAgent])
    | listR l => rw [hrule] at h; exact absurd h (by simp [evaluateRuleNoAgent])
    | otherR v =>
      rw [hrule] at h
      simp only [evaluateRuleNoAgent] at h
      exact ih (fun x hx => hsub x (by simp [hx])) h

/-- C4: when a `random_link` hop resolves a destination, the destination is
a non-void, non-destroyed node, is not the excluded (current) node, is no
agent's home node, and its effective `interact` rule is `"any"` — so every
agent, in particular the traveller, holds `interact` on it (only `"any"`
candidates are selectable because the permission filter runs against the
absent `agent` argument and any other rule either denies or throws).
When no destination resolves the hop fails: `ok none` yields the
`no available destinations` error with the validation refund, and a thrown
`TypeError` aborts the travel with no result. -/
theorem C4_random_destination (w : World) (now : Nat) (agent : AgentR)
    (shuffle : List InstanceR → List InstanceR) (linkId : String) (rest : List String)
    (cur : Option String) (link : InstanceR) (nid : String) :
    (∀ cands : List InstanceR,
      (∀ x ∈ cands, x ∈ randomCandidates w cur) →
      getRandomDestination w cands = .ok (some nid) →
      ∃ node ∈ w.instances, node.id = nid ∧ node.type = "node" ∧ node.is_void = false ∧
        node.is_destroyed = false ∧ (∀ e, cur = some e → nid ≠ e) ∧
        (∀ a ∈ w.agents, a.home_node_id ≠ nid) ∧
        getInstancePermission w node "interact" = .anyR ∧
        ∀ agent2 : AgentR, checkPermission w agent2 node "interact" = true) ∧
    (w.instances.find? (fun i => i.id == linkId && i.type == "link") = some link →
      link.is_void = false → link.is_destroyed = false →
      link.container_type = some "instance" → link.container_id = cur →
      link.system_type = some "random_link" →
      (getRandomDestination w (shuffle (randomCandidates w cur)) = .ok none →
        travelLoop now agent shuffle (linkId :: rest) w cur =
          (refundAp w agent (rest.length + 1), .ok (errV "no available destinations"))) ∧
      (getRandomDestination w (shuffle (randomCandidates w cur)) = .error () →
        travelLoop now agent shuffle (linkId :: rest) w cur = (w, .error ()))) := by
  constructor
  · exact getRandomDestination_sound w cur nid
  · intro hfind hv hd hct hci hsys
    constructor
    · intro hnone
      unfold travelLoop
      rw [hfind]
      simp [hv, hd, hct, hci, hsys, hnone]
    · intro herr
      unfold travelLoop
      rw [hfind]
      simp [hv, hd, hct, hci, hsys, herr]

/-- Witness for C4 at a concrete input: among candidates `x1` (interact
`"none"`) and `x2` (interact `"any"`), the selection returns `x2`, which
satisfies every destination property; and with no candidates at all the
hop fails with the refund. -/
theorem C4_random_destination_witness :
    (∃ node ∈ fxC4.instances, node.id = "x2" ∧ node.type = "node" ∧ node.is_void = false ∧
      node.is_destroyed = false ∧ (∀ e, (some "c1" : Option String) = some e → "x2" ≠ e) ∧
      (∀ a ∈ fxC4.agents, a.home_node_id ≠ "x2") ∧
      getInstancePermission fxC4 node "interact" = .anyR ∧
      ∀ agent2 : AgentR, checkPermission fxC4 agent2 node "interact" = true) := by
  exact (C4_random_destination fxC4 0 fxC4Agent id "l" [] (some "c1")
    { id := "l", type := "link" } "x2").1 (randomCandidates fxC4 (some "c1"))
    (fun x hx => hx) (by rfl)
end MASH

namespace MASH

/-! ## C5: counter-preservation infrastructure -/

theorem cp_refl (w : World) : CounterPres w w := fun _ _ h => h

theorem cp_trans {w1 w2 w3 : World} (h12 : CounterPres w1 w2) (h23 : CounterPres w2 w3) :
    CounterPres w1 w3 := fun tgt c h => h23 tgt c (h12 tgt c h)

theorem cp_of_eq {w1 w2 : World} (h : ∀ tgt, counterOf w2 tgt = counterOf w1 tgt) :
    CounterPres w1 w2 := fun tgt c hc => (h tgt).trans hc

theorem counterOf_updInstance_pres (w : World) (j tgt : String) (f : InstanceR → InstanceR)
    (hf_id : ∀ i, (f i).id = i.id)
    (hf_cnt : ∀ i, (f i).interactions_used_this_tick = i.interactions_used_this_tick) :
    counterOf (w.updInstance j f) tgt = counterOf w tgt := by
  rw [counterOf, counterOf, findInstance_updInstance w j tgt f hf_id]
  cases h : w.findInstance tgt with
  | none => rfl
  | some i =>
    simp only [Option.map_some']
    split
    · exact congrArg some (hf_cnt i)
    · rfl

theorem counterOf_updInstance_other (w : World) (j tgt : String) (f : InstanceR → InstanceR)
    (hf_id : ∀ i, (f i).id = i.id) (hne : j ≠ tgt) :
    counterOf (w.updInstance j f) tgt = counterOf w tgt := by
  rw [counterOf, counterOf, findInstance_updInstance w j tgt f hf_id]
  cases h : w.findInstance tgt with
  | none => rfl
  | some i =>
    have h' : List.find? (fun x => x.id == tgt) w.instances = some i := h
    have hb := List.find?_some h'
    simp only [beq_iff_eq] at hb
    have hid : i.id = tgt := hb
    have hij : (i.id == j) = false := by
      cases hcc : (i.id == j) with
      | false => rfl
      | true => exact absurd ((eq_of_beq hcc) ▸ hid) hne
    simp [hij]
    rw [if_neg fun hc : i.id = j => hne (hc ▸ hid)]

theorem counterOf_updInstance_self (w : World) (j : String) (k : Nat) (i0 : InstanceR)
    (h : w.findInstance j = some i0) :
    counterOf (w.updInstance j fun i => { i with interactions_used_this_tick := k }) j
      = some k := by
  rw [counterOf, findInstance_updInstance w j j
    (fun i => { i with interactions_used_this_tick := k }) (fun i => rfl), h]
  have h' : List.find? (fun x => x.id == j) w.instances = some i0 := h
  simp only [Option.map_some']
  rw [if_pos (List.find?_some h')]

theorem foldl_addEvent_instances (now : Nat) (t : String) (d : Value) (ex : Option String) :
    ∀ (l : List AgentR) (acc : World),
      (l.foldl (fun acc a => if ex != some a.id then addEvent acc now a.id t d else acc)
        acc).instances = acc.instances := by
  intro l
  induction l with
  | nil => intro acc; rfl
  | cons a rest ih =>
    intro acc
    rw [List.foldl_cons, ih]
    split <;> rfl

theorem counterOf_broadcast (w : World) (now : Nat) (nodeId t : String) (d : Value)
    (ex : Option String) (tgt : String) :
    counterOf (broadcastToNode w now nodeId t d ex) tgt = counterOf w tgt := by
  rw [counterOf, counterOf, World.findInstance, World.findInstance, broadcastToNode,
    foldl_addEvent_instances]

theorem counterOf_append_some (w w' : World) (l2 : List InstanceR)
    (hw : w'.instances = w.instances ++ l2) (tgt : String) (c : Nat)
    (h : counterOf w tgt = some c) : counterOf w' tgt = some c := by
  rw [counterOf, World.findInstance, hw]
  rw [counterOf, World.findInstance] at h
  cases hf : w.instances.find? (fun i => i.id == tgt) with
  | none => rw [hf] at h; exact absurd h (by simp)
  | some i =>
    rw [hf] at h
    rw [find?_append_left _ _ _ _ hf]
    exact h

set_option maxHeartbeats 2000000 in
theorem cp_setRef (w : World) (ctx : Ctx) (ref : String) (value : Value) :
    CounterPres w (setRef w ctx ref value).1 := by
  unfold setRef
  dsimp only
  repeat' split
  all_goals
    first
      | exact cp_refl w
      | exact cp_of_eq fun tgt =>
          counterOf_updInstance_pres _ _ tgt _ (fun i => rfl) (fun i => rfl)

set_option maxHeartbeats 4000000 in
theorem cp_executeEffect (w : World) (now : Nat) (ctx : Ctx) (e : EffectV) :
    CounterPres w (executeEffect w now ctx e).1 := by
  cases e with
  | denyE => exact cp_refl w
  | setE ref value => exact cp_setRef w ctx ref value
  | addE ref rawAmount =>
    cases rawAmount <;>
      (rw [executeEffect]; dsimp only; repeat' split) <;>
      first
        | exact cp_refl w
        | exact cp_setRef _ _ _ _
        | (intro x hx; exact Value.noConfusion hx)
  | sayE text =>
    rw [executeEffect]
    dsimp only
    repeat' split
    all_goals
      first
        | exact cp_refl w
        | exact cp_of_eq fun tgt => counterOf_broadcast _ _ _ _ _ _ tgt
  | takeE templateId fromRef =>
    rw [executeEffect]
    dsimp only
    repeat' split
    all_goals
      first
        | exact cp_refl w
        | exact cp_of_eq fun tgt =>
            counterOf_updInstance_pres _ _ tgt _ (fun i => rfl) (fun i => rfl)
  | giveE templateId toRef =>
    rw [executeEffect]
    dsimp only
    repeat' split
    all_goals
      first
        | exact cp_refl w
        | exact cp_of_eq fun tgt =>
            counterOf_updInstance_pres _ _ tgt _ (fun i => rfl) (fun i => rfl)
  | moveE ref destRef =>
    rw [executeEffect]
    dsimp only
    repeat' split
    all_goals
      first
        | exact cp_refl w
        | exact cp_of_eq fun tgt => rfl
        | exact cp_of_eq fun tgt =>
            counterOf_updInstance_pres _ _ tgt _ (fun i => rfl) (fun i => rfl)
  | createE templateId atRef =>
    rw [executeEffect]
    dsimp only
    repeat' split
    all_goals
      first
        | exact cp_refl w
        | exact fun tgt c h => counterOf_append_some w _ _ rfl tgt c h
  | destroyE ref =>
    rw [executeEffect]
    dsimp only
    repeat' split
    all_goals
      first
        | exact cp_refl w
        | exact cp_of_eq fun tgt =>
            counterOf_updInstance_pres _ _ tgt _ (fun i => rfl) (fun i => rfl)
  | permE ref permKey value =>
    rw [executeEffect]
    dsimp only
    repeat' split
    all_goals
      first
        | exact cp_refl w
        | exact cp_of_eq fun tgt =>
            counterOf_updInstance_pres _ _ tgt _ (fun i => rfl) (fun i => rfl)

mutual

theorem cp_executeEffects : (es : List EffectEntry) → (w : World) → (now : Nat) → (ctx : Ctx) →
    CounterPres w (executeEffects w now ctx es).1
  | [], w, _, _ => cp_refl w
  | entry :: rest, w, now, ctx => by
    rw [executeEffects]
    split
    · exact cp_refl w
    · cases hE : executeEntry w now ctx entry with
      | mk w1 ctx1 =>
        dsimp only
        have h1 : CounterPres w w1 := by
          have h0 := cp_executeEntry entry w now ctx
          rw [hE] at h0
          exact h0
        exact cp_trans h1 (cp_executeEffects rest w1 now ctx1)

theorem cp_executeEntry : (e : EffectEntry) → (w : World) → (now : Nat) → (ctx : Ctx) →
    CounterPres w (executeEntry w now ctx e).1
  | .eff e, w, now, ctx => cp_executeEffect w now ctx e
  | .block condL doL elseL, w, now, ctx => by
    rw [executeEntry.eq_def]
    dsimp only
    repeat' split
    all_goals
      first
        | exact cp_refl w
        | exact cp_executeEffects doL w now _
        | exact cp_executeEffects _ w now _

end

theorem cp_ruleQ (w : World) (now : Nat) (p : Ctx × Bool) (interaction : InteractionR) :
    CounterPres w
      (if p.2 then executeEffects w now p.1 interaction.doL
       else
         match interaction.elseL with
         | some es => executeEffects w now p.1 es
         | none => (w, p.1)).1 := by
  split
  · exact cp_executeEffects _ w now _
  · split
    · exact cp_executeEffects _ w now _
    · exact cp_refl w

theorem counterOf_fireLoop_other (now : Nat) (instId tgt : String) (hne : instId ≠ tgt) :
    ∀ (rules : List InteractionR) (w : World) (ctx : Ctx) (used : Nat) (c : Nat),
      counterOf w tgt = some c →
      counterOf (fireLoop now instId rules w ctx used).1 tgt = some c := by
  intro rules
  induction rules with
  | nil => intro w ctx used c h; rw [fireLoop]; exact h
  | cons interaction rest ih =>
    intro w ctx used c h
    rw [fireLoop]
    split
    · exact h
    · split
      · exact h
      · dsimp only
        refine ih _ _ _ c ?_
        rw [counterOf_updInstance_other _ instId tgt
          (fun i => { i with interactions_used_this_tick := used + 1 }) (fun i => rfl) hne]
        exact cp_ruleQ w now _ interaction tgt c h

theorem fireLoop_counter (now : Nat) (instId : String) :
    ∀ (rules : List InteractionR) (w : World) (ctx : Ctx) (used : Nat),
      counterOf w instId = some used →
      counterOf (fireLoop now instId rules w ctx used).1 instId
          = some (fireLoop now instId rules w ctx used).2.2 ∧
      used ≤ (fireLoop now instId rules w ctx used).2.2 ∧
      (used ≤ MAX_INTERACTIONS_PER_TICK →
        (fireLoop now instId rules w ctx used).2.2 ≤ MAX_INTERACTIONS_PER_TICK) := by
  intro rules
  induction rules with
  | nil =>
    intro w ctx used h
    rw [fireLoop]
    exact ⟨h, Nat.le_refl used, fun hc => hc⟩
  | cons interaction rest ih =>
    intro w ctx used h
    rw [fireLoop]
    split
    · exact ⟨h, Nat.le_refl used, fun hc => hc⟩
    · split
      · exact ⟨h, Nat.le_refl used, fun hc => hc⟩
      · rename_i hcap hden
        have hcap4 : ¬ used ≥ 4 := hcap
        have hlt : used + 1 ≤ MAX_INTERACTIONS_PER_TICK := by
          show used + 1 ≤ 4
          omega
        dsimp only
        have hq := cp_ruleQ w now
          (match interaction.iff with
           | some cs => evaluateConditions w now ctx cs
           | none => (ctx, true)) interaction instId used h
        obtain ⟨i0, hi0, _⟩ := Option.map_eq_some'.mp hq
        have hcnt := counterOf_updInstance_self _ instId (used + 1) i0 hi0
        exact ⟨(ih _ _ _ hcnt).1,
          Nat.le_trans (Nat.le_succ used) (ih _ _ _ hcnt).2.1,
          fun _ => (ih _ _ _ hcnt).2.2 hlt⟩

theorem fireLoop_cap (now : Nat) (instId : String) (rules : List InteractionR) (w : World)
    (ctx : Ctx) (used : Nat) (h : MAX_INTERACTIONS_PER_TICK ≤ used) :
    fireLoop now instId rules w ctx used = (w, ctx, used) := by
  cases rules with
  | nil => rw [fireLoop]
  | cons a l =>
    rw [fireLoop]
    rw [if_pos h]

theorem fireMain_counter (now : Nat) (inst : InstanceR) (w : World) (rules : List InteractionR)
    (ctx : Ctx) (hc : counterOf w inst.id = some inst.interactions_used_this_tick) :
    counterOf (fireLoop now inst.id rules w ctx inst.interactions_used_this_tick).1 inst.id
        = some (inst.interactions_used_this_tick
            + ((fireLoop now inst.id rules w ctx inst.interactions_used_this_tick).2.2
               - inst.interactions_used_this_tick)) ∧
    (inst.interactions_used_this_tick ≤ MAX_INTERACTIONS_PER_TICK →
      inst.interactions_used_this_tick
          + ((fireLoop now inst.id rules w ctx inst.interactions_used_this_tick).2.2
             - inst.interactions_used_this_tick)
        ≤ MAX_INTERACTIONS_PER_TICK) := by
  obtain ⟨h1, h2, h3⟩ :=
    fireLoop_counter now inst.id rules w ctx inst.interactions_used_this_tick hc
  constructor
  · rw [Nat.add_sub_cancel' h2]
    exact h1
  · intro h4
    rw [Nat.add_sub_cancel' h2]
    exact h3 h4

theorem fireInteractionsX_counter (w : World) (now : Nat) (inst : InstanceR) (verb : String)
    (actor : Option AgentR) (subject : Option InstanceR)
    (hfind : w.findInstance inst.id = some inst) :
    counterOf (fireInteractionsX w now inst verb actor subject).1 inst.id
        = some (inst.interactions_used_this_tick
            + (fireInteractionsX w now inst verb actor subject).2.2) ∧
    (inst.interactions_used_this_tick ≤ MAX_INTERACTIONS_PER_TICK →
      inst.interactions_used_this_tick + (fireInteractionsX w now inst verb actor subject).2.2
        ≤ MAX_INTERACTIONS_PER_TICK) := by
  have hc : counterOf w inst.id = some inst.interactions_used_this_tick := by
    rw [counterOf, hfind]; rfl
  unfold fireInteractionsX
  rw [hfind]
  dsimp only
  repeat' split
  all_goals
    first
      | exact ⟨by simpa using hc, fun h4 => by simpa using h4⟩
      | exact fireMain_counter now inst w _ _ hc

theorem fireInteractionsX_other (w : World) (now : Nat) (inst : InstanceR) (verb : String)
    (actor : Option AgentR) (subject : Option InstanceR) (tgt : String) (c : Nat)
    (hne : inst.id ≠ tgt) (h : counterOf w tgt = some c) :
    counterOf (fireInteractionsX w now inst verb actor subject).1 tgt = some c := by
  unfold fireInteractionsX
  repeat' first | split | dsimp only
  all_goals
    first
      | exact h
      | exact counterOf_fireLoop_other now inst.id tgt hne _ w _ _ c h

theorem fireInteractionsX_cap (w : World) (now : Nat) (inst : InstanceR) (verb : String)
    (actor : Option AgentR) (subject : Option InstanceR)
    (hfind : w.findInstance inst.id = some inst)
    (hcap : MAX_INTERACTIONS_PER_TICK ≤ inst.interactions_used_this_tick) :
    fireInteractionsX w now inst verb actor subject = (w, false, 0) := by
  unfold fireInteractionsX
  rw [hfind]
  dsimp only
  repeat' first | split | dsimp only
  all_goals
    first
      | rfl
      | (rw [fireLoop_cap now inst.id _ w _ _ hcap]; dsimp only; rw [Nat.sub_self])

theorem execCountOn_budget (now : Nat) (tgt : String) :
    ∀ (calls : List FireCall) (w : World) (c : Nat),
      counterOf w tgt = some c → c ≤ MAX_INTERACTIONS_PER_TICK →
      c + execCountOn now tgt calls w ≤ MAX_INTERACTIONS_PER_TICK := by
  intro calls
  induction calls with
  | nil =>
    intro w c h hc
    rw [execCountOn]
    simpa using hc
  | cons call rest ih =>
    intro w c h hc
    rw [execCountOn]
    cases hf : w.findInstance call.instId with
    | none =>
      dsimp only
      exact ih w c h hc
    | some inst =>
      dsimp only
      have hf' : List.find? (fun x => x.id == call.instId) w.instances = some inst := hf
      have hb := List.find?_some hf'
      simp only [beq_iff_eq] at hb
      by_cases htgt : call.instId = tgt
      · subst htgt
        have hfind : w.findInstance inst.id = some inst := by rw [hb]; exact hf
        have hcv : inst.interactions_used_this_tick = c := by
          rw [counterOf, ← hb, hfind] at h
          simpa using h
        obtain ⟨h1, h2⟩ :=
          fireInteractionsX_counter w now inst call.verb call.actor call.subject hfind
        rw [hb] at h1
        rw [hcv] at h1 h2
        have hrec := ih _ _ h1 (h2 hc)
        rw [if_pos (by simp : (call.instId == call.instId) = true)]
        omega
      · have hij : (call.instId == tgt) = false := by
          cases hcc : (call.instId == tgt) with
          | false => rfl
          | true => exact absurd (eq_of_beq hcc) htgt
        have hpres := fireInteractionsX_other w now inst call.verb call.actor call.subject
          tgt c (fun hx => htgt (hb ▸ hx)) h
        have hrec := ih _ _ hpres hc
        rw [hij]
        simpa using hrec

/-- C5: across any sequence of `fire(instance, verb, actor, subject)`
invocations within one tick, the total number of interaction rules
executed on a given instance is at most `MAX_INTERACTIONS_PER_TICK = 4`,
counting one per rule whose `on` matches that runs (first conjunct, from a
freshly reset per-tick counter). Once the stored counter has reached the
cap, a further `fire` call returns the world unchanged, reports no deny
and executes zero rules — matching rules beyond the cap are silently
dropped with no observable side effect (second conjunct) — and within one
call the rule loop stops as soon as the persisted counter reaches the cap
(third conjunct). -/
theorem C5_interaction_budget (now : Nat) (tgt : String) :
    (∀ (calls : List FireCall) (w : World),
      counterOf w tgt = some 0 →
      execCountOn now tgt calls w ≤ MAX_INTERACTIONS_PER_TICK) ∧
    (∀ (w : World) (inst : InstanceR) (verb : String) (actor : Option AgentR)
        (subject : Option InstanceR),
      w.findInstance inst.id = some inst →
      MAX_INTERACTIONS_PER_TICK ≤ inst.interactions_used_this_tick →
      fireInteractionsX w now inst verb actor subject = (w, false, 0)) ∧
    (∀ (rules : List InteractionR) (w : World) (ctx : Ctx) (used : Nat),
      MAX_INTERACTIONS_PER_TICK ≤ used →
      fireLoop now tgt rules w ctx used = (w, ctx, used)) := by
  refine ⟨?_, ?_, ?_⟩
  · intro calls w h
    have hb := execCountOn_budget now tgt calls w 0 h (Nat.zero_le _)
    simpa using hb
  · intro w inst verb actor subject hfind hcap
    exact fireInteractionsX_cap w now inst verb actor subject hfind hcap
  · intro rules w ctx used hcap
    exact fireLoop_cap now tgt rules w ctx used hcap

/-- Witness for C5 at concrete inputs: on `fxC5` (five matching `tick`
rules, counter starting at 0) two consecutive `fire` calls execute 4 rules
in total; on the capped store `fxC5Cap` a further call is the identity;
and the rule loop at a counter of 4 drops every remaining rule. -/
theorem C5_interaction_budget_witness :
    execCountOn 0 "i1" fxC5Calls fxC5 ≤ MAX_INTERACTIONS_PER_TICK ∧
    fireInteractionsX fxC5Cap 0 fxC5CapInst "tick" none none = (fxC5Cap, false, 0) ∧
    fireLoop 0 "i1" fxC5Tpl.interactions fxC5
        { self := fxC5Thing, actor := none, subject := none, template := fxC5Tpl,
          denied := false } 4
      = (fxC5,
         { self := fxC5Thing, actor := none, subject := none, template := fxC5Tpl,
           denied := false }, 4) :=
  ⟨(C5_interaction_budget 0 "i1").1 fxC5Calls fxC5 (by rfl),
   (C5_interaction_budget 0 "i1").2.1 fxC5Cap fxC5CapInst "tick" none none (by rfl) (by decide),
   (C5_interaction_budget 0 "i1").2.2 fxC5Tpl.interactions fxC5
     { self := fxC5Thing, actor := none, subject := none, template := fxC5Tpl,
       denied := false } 4 (by decide)⟩

/-! ## C6 -/

theorem executeEffects_denied (w : World) (now : Nat) (ctx : Ctx) (es : List EffectEntry)
    (h : ctx.denied = true) : executeEffects w now ctx es = (w, ctx) := by
  cases es with
  | nil => rw [executeEffects]
  | cons entry rest =>
    rw [executeEffects]
    rw [if_pos h]

theorem executeEffects_append (now : Nat) :
    ∀ (es1 es2 : List EffectEntry) (w : World) (ctx : Ctx),
      executeEffects w now ctx (es1 ++ es2)
        = executeEffects (executeEffects w now ctx es1).1 now
            (executeEffects w now ctx es1).2 es2 := by
  intro es1
  induction es1 with
  | nil => intro es2 w ctx; rfl
  | cons entry rest ih =>
    intro es2 w ctx
    rw [List.cons_append, executeEffects, executeEffects]
    by_cases hd : ctx.denied = true
    · rw [if_pos hd, if_pos hd]
      exact (executeEffects_denied w now ctx es2 hd).symm
    · rw [if_neg hd, if_neg hd]
      exact ih es2 _ _

theorem fireLoop_denied (now : Nat) (instId : String) (rules : List InteractionR) (w : World)
    (ctx : Ctx) (used : Nat) (h : ctx.denied = true) :
    fireLoop now instId rules w ctx used = (w, ctx, used) := by
  cases rules with
  | nil => rw [fireLoop]
  | cons a l =>
    rw [fireLoop]
    split
    · rfl
    · rfl

/-- C6: within one `fire` call, a `deny` effect sets the per-invocation
`denied` flag (1); once the flag is set every remaining effect entry of
the current branch is skipped with no side effect (2, with (3) the
sequential composition of entry lists that routes the flag across a rule's
whole branch); every remaining matching rule of the same call is skipped
(4); a nested conditional block runs its branch in the *same* context, so
its effects observe and set the same shared flag (5); and the Bool
returned by `fire` is exactly the `denied` flag of the rule loop's final
context, so the caller can reject the triggering verb (6). -/
theorem C6_deny_semantics (now : Nat) :
    (∀ (w : World) (ctx : Ctx),
      executeEffect w now ctx .denyE = (w, { ctx with denied := true })) ∧
    (∀ (w : World) (ctx : Ctx) (es : List EffectEntry),
      ctx.denied = true → executeEffects w now ctx es = (w, ctx)) ∧
    (∀ (es1 es2 : List EffectEntry) (w : World) (ctx : Ctx),
      executeEffects w now ctx (es1 ++ es2)
        = executeEffects (executeEffects w now ctx es1).1 now
            (executeEffects w now ctx es1).2 es2) ∧
    (∀ (instId : String) (rules : List InteractionR) (w : World) (ctx : Ctx) (used : Nat),
      ctx.denied = true → fireLoop now instId rules w ctx used = (w, ctx, used)) ∧
    (∀ (w : World) (ctx : Ctx) (doL : List EffectEntry) (elseL : Option (List EffectEntry)),
      executeEntry w now ctx (.block none doL elseL) = executeEffects w now ctx doL) ∧
    (∀ (w : World) (inst : InstanceR) (verb : String) (actor : Option AgentR)
        (subject : Option InstanceR) (tid : String) (template : TemplateR) (fresh : InstanceR),
      (inst.is_void || inst.is_destroyed) = false →
      inst.template_id = some tid →
      w.findTemplate tid = some template →
      (template.interactions.filter fun i => i.onV == verb).isEmpty = false →
      w.findInstance inst.id = some fresh →
      (fireInteractions w now inst verb actor subject).2
        = (fireLoop now inst.id (template.interactions.filter fun i => i.onV == verb) w
            { self := inst, actor := actor, subject := subject, template := template,
              denied := false } fresh.interactions_used_this_tick).2.1.denied) := by
  refine ⟨fun w ctx => rfl, fun w ctx es h => executeEffects_denied w now ctx es h,
    fun es1 es2 w ctx => executeEffects_append now es1 es2 w ctx,
    fun instId rules w ctx used h => fireLoop_denied now instId rules w ctx used h,
    ?_, ?_⟩
  · intro w ctx doL elseL
    rw [executeEntry.eq_def]
    simp
  · intro w inst verb actor subject tid template fresh hv htid htpl hmatch hfind
    rw [fireInteractions]
    unfold fireInteractionsX
    rw [hv, if_neg Bool.false_ne_true, htid]
    dsimp only
    rw [htpl]
    dsimp only
    rw [hmatch, if_neg Bool.false_ne_true, hfind]

/-- Witness for C6 at concrete inputs: a denied context is inert for the
effect list and the rule loop of `fxC5`, and on `fxC5` the `fire` result
is the final loop context's flag. -/
theorem C6_deny_semantics_witness :
    executeEffects fxC5 0
        { self := fxC5Thing, actor := none, subject := none, template := fxC5Tpl,
          denied := true } (fxC5Rule "f1").doL
      = (fxC5,
         { self := fxC5Thing, actor := none, subject := none, template := fxC5Tpl,
           denied := true }) ∧
    fireLoop 0 "i1" fxC5Tpl.interactions fxC5
        { self := fxC5Thing, actor := none, subject := none, template := fxC5Tpl,
          denied := true } 0
      = (fxC5,
         { self := fxC5Thing, actor := none, subject := none, template := fxC5Tpl,
           denied := true }, 0) ∧
    (fireInteractions fxC5 0 fxC5Thing "tick" none none).2
      = (fireLoop 0 fxC5Thing.id (fxC5Tpl.interactions.filter fun i => i.onV == "tick") fxC5
          { self := fxC5Thing, actor := none, subject := none, template := fxC5Tpl,
            denied := false } fxC5Thing.interactions_used_this_tick).2.1.denied :=
  ⟨(C6_deny_semantics 0).2.1 fxC5 _ _ (by rfl),
   (C6_deny_semantics 0).2.2.2.1 "i1" fxC5Tpl.interactions fxC5 _ 0 (by rfl),
   (C6_deny_semantics 0).2.2.2.2.2 fxC5 fxC5Thing "tick" none none "t1" fxC5Tpl fxC5Thing
     (by rfl) (by rfl) (by rfl) (by rfl) (by rfl)⟩

/-! ## C7 -/

/-- C7 counterexample: the claim's scenario 4 — two-hop travel whose second
link is void — debits 2 AP at entry (`4 - 2`), but the tick that processes
the travel first resets the agent to `MAX_AP` and only then runs the hops,
so the hop-2 validation refund of 1 lands on the reset value: the agent
ends the tick at `MAX_AP + 1 = 5`, not the claimed `MAX_AP - 1 = 3`. -/
theorem C7_travel_refund_counterexample :
    apOf fxC7Debited "a1" = some (MAX_AP - 2) ∧
    apOf fxC7Ticked "a1" = some (MAX_AP + 1) ∧
    (MAX_AP + 1 : Int) ≠ MAX_AP - 1 := by
  refine ⟨by decide, by decide, by decide⟩

/-- C7 amended: `len(via)` AP is debited at request entry (1, 2); a refund
of `n > 0` raises the stored AP by exactly `n` (3); at a hop whose
remaining link list is `linkId :: rest` (hop `i` of `n`, so
`rest.length + 1 = n - i`) each validation failure — link missing (4),
void or destroyed (5), not in the current node (6), or without a
destination (7) — refunds `rest.length + 1 = n - i` AP, while a `deny` on
the link's `travel` rules refunds one less and reports `stopped_at` as the
node reached before the hop, leaving `current_node_id` untouched (8); an
exhausted link list arrives with no refund (9). The refunds granted while
the tick processes the queue apply to the agent's post-reset AP — the tick
resets AP to `MAX_AP` *before* running queued travel — so the claim's
scenario envelope shows `MAX_AP + 1`, not `MAX_AP - 1`. -/
theorem C7_travel_refund_amended (now : Nat) (agent : AgentR)
    (shuffle : List InstanceR → List InstanceR) :
    (∀ (params : ParamsR) (linkIds : List String),
      params.via = some linkIds → params.via_is_array = true →
      actionApCost "travel" params = linkIds.length) ∧
    (∀ (w : World) (agentId : String) (fresh : AgentR) (cost : Nat),
      w.findAgent agentId = some fresh → ¬ fresh.ap < (cost : Int) →
      apOf (postActionDebit w agentId cost).1 agentId = some (fresh.ap - cost)) ∧
    (∀ (w : World) (fresh : AgentR) (n : Int),
      w.findAgent agent.id = some fresh → 0 < n →
      apOf (refundAp w agent n) agent.id = some (fresh.ap + n)) ∧
    (∀ (w : World) (cur : Option String) (linkId : String) (rest : List String),
      w.instances.find? (fun i => i.id == linkId && i.type == "link") = none →
      travelLoop now agent shuffle (linkId :: rest) w cur
        = (refundAp w agent (rest.length + 1),
           .ok (errV ("link " ++ linkId ++ " not found or is void")))) ∧
    (∀ (w : World) (cur : Option String) (linkId : String) (rest : List String)
        (link : InstanceR),
      w.instances.find? (fun i => i.id == linkId && i.type == "link") = some link →
      (link.is_void || link.is_destroyed) = true →
      travelLoop now agent shuffle (linkId :: rest) w cur
        = (refundAp w agent (rest.length + 1),
           .ok (errV ("link " ++ linkId ++ " not found or is void")))) ∧
    (∀ (w : World) (cur : Option String) (linkId : String) (rest : List String)
        (link : InstanceR),
      w.instances.find? (fun i => i.id == linkId && i.type == "link") = some link →
      link.is_void = false → link.is_destroyed = false →
      (link.container_type == some "instance" && link.container_id == cur) = false →
      travelLoop now agent shuffle (linkId :: rest) w cur
        = (refundAp w agent (rest.length + 1),
           .ok (errV ("link " ++ linkId ++ " is not in your current node")))) ∧
    (∀ (w : World) (cur : Option String) (linkId : String) (rest : List String)
        (link : InstanceR),
      w.instances.find? (fun i => i.id == linkId && i.type == "link") = some link →
      link.is_void = false → link.is_destroyed = false →
      (link.container_type == some "instance" && link.container_id == cur) = true →
      (link.system_type == some "random_link") = false →
      getF link.fields "destination" = none →
      travelLoop now agent shuffle (linkId :: rest) w cur
        = (refundAp w agent (rest.length + 1),
           .ok (errV ("link " ++ linkId ++ " has no destination")))) ∧
    (∀ (w w1 : World) (cur : Option String) (linkId : String) (rest : List String)
        (link destNode : InstanceR) (dv : Value),
      w.instances.find? (fun i => i.id == linkId && i.type == "link") = some link →
      link.is_void = false → link.is_destroyed = false →
      (link.container_type == some "instance" && link.container_id == cur) = true →
      (link.system_type == some "random_link") = false →
      getF link.fields "destination" = some dv →
      dv.truthy = true →
      w.instances.find? (fun i =>
          i.id == dv.asIdStr && i.type == "node" && !i.is_void && !i.is_destroyed)
        = some destNode →
      fireInteractions w now link "travel" (some agent) none = (w1, true) →
      travelLoop now agent shuffle (linkId :: rest) w cur
        = (refundAp w1 agent ((rest.length : Int) + 1 - 1),
           .ok (.obj [("error", .str ("travel denied by " ++ link.short_description)),
                      ("stopped_at", optStrV cur)]))) ∧
    (∀ (w : World) (cur : Option String),
      travelLoop now agent shuffle [] w cur
        = (w, .ok (.obj [("arrived_at", optStrV cur),
                         ("perception", generatePerception w agent cur)]))) := by
  refine ⟨?_, ?_, ?_, ?_, ?_, ?_, ?_, ?_, ?_⟩
  · intro params linkIds hvia harr
    rw [actionApCost]
    simp [hvia, harr]
  · intro w agentId fresh cost hfind hlt
    rw [postActionDebit, hfind]
    dsimp only
    rw [if_neg hlt, apOf,
      findAgent_updAgent_self w agentId (fun a => { a with ap := a.ap - cost }) fresh hfind
        (fun a => rfl)]
    rfl
  · intro w fresh n hfind hn
    rw [refundAp, if_pos hn, apOf,
      findAgent_updAgent_self w agent.id (fun a => { a with ap := a.ap + n }) fresh hfind
        (fun a => rfl)]
    rfl
  · intro w cur linkId rest hfind
    unfold travelLoop
    rw [hfind]
  · intro w cur linkId rest link hfind hvd
    unfold travelLoop
    rw [hfind]
    simp [hvd]
  · intro w cur linkId rest link hfind hv hd hnin
    unfold travelLoop
    rw [hfind]
    simp [hv, hd, hnin]
  · intro w cur linkId rest link hfind hv hd hin hsys hdest
    unfold travelLoop
    rw [hfind]
    simp [hv, hd, hin, hsys, hdest]
  · intro w w1 cur linkId rest link destNode dv hfind hv hd hin hsys hdest htr hdn hfire
    unfold travelLoop
    rw [hfind]
    simp [hv, hd, hin, hsys, hdest, htr, hdn, hfire]
  · intro w cur
    rw [travelLoop]

/-- Witness for the amended C7 at concrete inputs: the 2-link `via` costs
2 AP and the debit lands (1, 2); a refund of 2 raises AP from 4 to 6 (3);
single-hop travels failing each validation (missing `zz`, void `l2`,
out-of-node `l1`, destinationless `l4`) refund `0 + 1`; a denying link
`l3` refunds `0 + 1 - 1` with the `stopped_at` marker. -/
theorem C7_travel_refund_amended_witness :
    actionApCost "travel" fxC7Params = (["l1", "l2"] : List String).length ∧
    apOf (postActionDebit fxC7 "a1" 2).1 "a1" = some (fxC7Agent.ap - 2) ∧
    apOf (refundAp fxC7 fxC7Agent 2) fxC7Agent.id = some (fxC7Agent.ap + 2) ∧
    travelLoop 0 fxC7Agent id ["zz"] fxC7 (some "n1")
      = (refundAp fxC7 fxC7Agent (([] : List String).length + 1),
         .ok (errV ("link " ++ "zz" ++ " not found or is void"))) ∧
    travelLoop 0 fxC7Agent id ["l2"] fxC7 (some "n2")
      = (refundAp fxC7 fxC7Agent (([] : List String).length + 1),
         .ok (errV ("link " ++ "l2" ++ " not found or is void"))) ∧
    travelLoop 0 fxC7Agent id ["l1"] fxC7 (some "n2")
      = (refundAp fxC7 fxC7Agent (([] : List String).length + 1),
         .ok (errV ("link " ++ "l1" ++ " is not in your current node"))) ∧
    travelLoop 0 fxC7Agent id ["l4"] fxC7W (some "n1")
      = (refundAp fxC7W fxC7Agent (([] : List String).length + 1),
         .ok (errV ("link " ++ "l4" ++ " has no destination"))) ∧
    travelLoop 0 fxC7Agent id ["l3"] fxC7W (some "n1")
      = (refundAp fxC7W1 fxC7Agent ((([] : List String).length : Int) + 1 - 1),
         .ok (.obj [("error", .str ("travel denied by " ++ fxC7L3.short_description)),
                    ("stopped_at", optStrV (some "n1"))])) :=
  ⟨(C7_travel_refund_amended 0 fxC7Agent id).1 fxC7Params ["l1", "l2"] rfl rfl,
   (C7_travel_refund_amended 0 fxC7Agent id).2.1 fxC7 "a1" fxC7Agent 2 (by rfl) (by decide),
   (C7_travel_refund_amended 0 fxC7Agent id).2.2.1 fxC7 fxC7Agent 2 (by rfl) (by decide),
   (C7_travel_refund_amended 0 fxC7Agent id).2.2.2.1 fxC7 (some "n1") "zz" [] (by rfl),
   (C7_travel_refund_amended 0 fxC7Agent id).2.2.2.2.1 fxC7 (some "n2") "l2" [] fxC7L2
     (by rfl) (by rfl),
   (C7_travel_refund_amended 0 fxC7Agent id).2.2.2.2.2.1 fxC7 (some "n2") "l1" [] fxC7L1
     (by rfl) rfl rfl (by rfl),
   (C7_travel_refund_amended 0 fxC7Agent id).2.2.2.2.2.2.1 fxC7W (some "n1") "l4" [] fxC7L4
     (by rfl) rfl rfl (by rfl) (by rfl) (by rfl),
   (C7_travel_refund_amended 0 fxC7Agent id).2.2.2.2.2.2.2.1 fxC7W fxC7W1 (some "n1") "l3" []
     fxC7L3 fxC7N2 (.str "n2") (by rfl) rfl rfl (by rfl) (by rfl) (by rfl) (by rfl) (by rfl)
     (by rfl)⟩

/-! ## C8 -/

theorem selectEvents_length_le (w : World) (agentId : String) :
    (selectEvents w agentId).length ≤ MAX_EVENTS_PER_RESPONSE := by
  rw [selectEvents]
  rw [List.length_take]
  exact Nat.min_le_left _ _

theorem selectEvents_sorted (w : World) (agentId : String) :
    List.Sorted (fun a b => a.id ≤ b.id) (selectEvents w agentId) := by
  rw [selectEvents]
  exact List.Pairwise.sublist (List.take_sublist _ _) (List.sorted_insertionSort _ _)

theorem selectEvents_mem (w : World) (agentId : String) (e : EventR)
    (h : e ∈ selectEvents w agentId) : e ∈ w.events ∧ e.agent_id = agentId := by
  rw [selectEvents] at h
  have h1 : e ∈ List.insertionSort (fun a b => a.id ≤ b.id)
      (w.events.filter fun x => x.agent_id == agentId) := List.mem_of_mem_take h
  rw [(List.perm_insertionSort _ _).mem_iff, List.mem_filter] at h1
  exact ⟨h1.1, by simpa using h1.2⟩

theorem sorted_le_getLast :
    ∀ (l : List EventR), List.Sorted (fun a b => a.id ≤ b.id) l →
      ∀ z, l.getLast? = some z → ∀ x ∈ l, x.id ≤ z.id := by
  intro l
  induction l with
  | nil => intro _ z hz; cases hz
  | cons a t ih =>
    intro hs z hz x hx
    cases t with
    | nil =>
      have hz' : a = z := by simpa using hz
      have hx' : x = a := by simpa using hx
      subst hz'
      subst hx'
      exact Nat.le_refl _
    | cons b t2 =>
      rw [List.getLast?_cons_cons] at hz
      rcases List.mem_cons.mp hx with rfl | hx2
      · have hzmem : z ∈ b :: t2 := by
          obtain ⟨hne, hzz⟩ := List.mem_getLast?_eq_getLast (Option.mem_def.mpr hz)
          rw [hzz]
          exact List.getLast_mem hne
        exact (List.sorted_cons.mp hs).1 z hzmem
      · exact ih (List.sorted_cons.mp hs).2 z hz x hx2

theorem wf_id_unique :
    ∀ (l : List EventR), l.Pairwise (fun a b => a.id < b.id) →
      ∀ e ∈ l, ∀ f ∈ l, e.id = f.id → e = f := by
  intro l
  induction l with
  | nil => intro _ e he; cases he
  | cons a t ih =>
    intro hp e he f hf hid
    rw [List.pairwise_cons] at hp
    rcases List.mem_cons.mp he with rfl | he2
    · rcases List.mem_cons.mp hf with rfl | hf2
      · rfl
      · exact absurd hid (Nat.ne_of_lt (hp.1 f hf2))
    · rcases List.mem_cons.mp hf with rfl | hf2
      · exact absurd hid.symm (Nat.ne_of_lt (hp.1 e he2))
      · exact ih hp.2 e he2 f hf2 hid

theorem wf_filter_pairwise (w : World) (hwf : EventsWF w) (agentId : String) :
    (w.events.filter fun e => e.agent_id == agentId).Pairwise (fun a b => a.id < b.id) :=
  List.Pairwise.sublist (List.filter_sublist _) hwf.1

theorem wf_sort_eq (w : World) (hwf : EventsWF w) (agentId : String) :
    List.insertionSort (fun a b => a.id ≤ b.id) (w.events.filter fun e => e.agent_id == agentId)
      = w.events.filter fun e => e.agent_id == agentId := by
  apply List.Sorted.insertionSort_eq
  exact (wf_filter_pairwise w hwf agentId).imp fun h => Nat.le_of_lt h

theorem buildResponse_fst (w : World) (now : Nat) (agent : AgentR) :
    (buildResponse w now agent).1
      = match (selectEvents w agent.id).getLast? with
        | none => w
        | some lastEv =>
          { w with
            events := w.events.filter fun e => !(e.agent_id == agent.id && e.id ≤ lastEv.id) } := by
  rw [buildResponse]
  repeat' split
  all_goals rfl

theorem selectEvents_lowest (w : World) (agentId : String) (hwf : EventsWF w)
    (e : EventR) (he : e ∈ selectEvents w agentId)
    (e' : EventR) (he' : e' ∈ w.events) (ha' : e'.agent_id = agentId)
    (hn' : e' ∉ selectEvents w agentId) : e.id < e'.id := by
  have hfil : e' ∈ w.events.filter fun x => x.agent_id == agentId :=
    List.mem_filter.mpr ⟨he', by simp [ha']⟩
  rw [selectEvents, wf_sort_eq w hwf agentId] at he hn'
  have hsplit := List.take_append_drop MAX_EVENTS_PER_RESPONSE
    (w.events.filter fun x => x.agent_id == agentId)
  have hfil2 : e' ∈ List.take MAX_EVENTS_PER_RESPONSE
        (w.events.filter fun x => x.agent_id == agentId)
      ++ List.drop MAX_EVENTS_PER_RESPONSE (w.events.filter fun x => x.agent_id == agentId) := by
    rw [hsplit]
    exact hfil
  have hdrop : e' ∈ List.drop MAX_EVENTS_PER_RESPONSE
      (w.events.filter fun x => x.agent_id == agentId) := by
    rcases List.mem_append.mp hfil2 with h1 | h2
    · exact absurd h1 hn'
    · exact h2
  have hp : (List.take MAX_EVENTS_PER_RESPONSE (w.events.filter fun x => x.agent_id == agentId)
      ++ List.drop MAX_EVENTS_PER_RESPONSE
        (w.events.filter fun x => x.agent_id == agentId)).Pairwise
      (fun a b => a.id < b.id) := by
    rw [hsplit]
    exact wf_filter_pairwise w hwf agentId
  exact (List.pairwise_append.mp hp).2.2 e he e' hdrop

theorem buildResponse_events_iff (w : World) (now : Nat) (agent : AgentR) (hwf : EventsWF w)
    (e : EventR) (he : e ∈ w.events) :
    e ∈ (buildResponse w now agent).1.events ↔
      e.id ∉ (selectEvents w agent.id).map fun x => x.id := by
  rw [buildResponse_fst]
  cases hl : (selectEvents w agent.id).getLast? with
  | none =>
    have hnil : selectEvents w agent.id = [] := List.getLast?_eq_none_iff.mp hl
    rw [hnil]
    simp [he]
  | some lastEv =>
    have hlastSel : lastEv ∈ selectEvents w agent.id := by
      obtain ⟨hne, hzz⟩ := List.mem_getLast?_eq_getLast (Option.mem_def.mpr hl)
      rw [hzz]
      exact List.getLast_mem hne
    constructor
    · intro hmem
      dsimp only at hmem
      have hpred := (List.mem_filter.mp hmem).2
      intro hin
      obtain ⟨e2, he2sel, he2i⟩ := List.mem_map.mp hin
      have he2 := selectEvents_mem w agent.id e2 he2sel
      have heq : e2 = e := wf_id_unique w.events hwf.1 e2 he2.1 e he he2i
      subst heq
      have hle := sorted_le_getLast (selectEvents w agent.id)
        (selectEvents_sorted w agent.id) lastEv hl e2 he2sel
      rw [he2.2] at hpred
      simp [hle] at hpred
    · intro hnot
      dsimp only
      refine List.mem_filter.mpr ⟨he, ?_⟩
      by_cases hmatch : e.agent_id = agent.id
      · by_cases hle : e.id ≤ lastEv.id
        · exfalso
          have hfil : e ∈ w.events.filter fun x => x.agent_id == agent.id :=
            List.mem_filter.mpr ⟨he, by simp [hmatch]⟩
          by_cases hsel : e ∈ selectEvents w agent.id
          · exact hnot (List.mem_map.mpr ⟨e, hsel, rfl⟩)
          · have hlt := selectEvents_lowest w agent.id hwf lastEv hlastSel e he hmatch hsel
            omega
        · simp [hle]
      · simp [hmatch]

theorem wf_addEvent (w : World) (now : Nat) (a t : String) (d : Value) (hwf : EventsWF w) :
    EventsWF (addEvent w now a t d) := by
  constructor
  · rw [addEvent]
    dsimp only
    apply List.pairwise_append.mpr
    refine ⟨hwf.1, List.pairwise_singleton _ _, ?_⟩
    intro x hx y hy
    rw [List.mem_singleton] at hy
    subst hy
    exact hwf.2 x hx
  · intro e he
    rw [addEvent] at he
    dsimp only at he ⊢
    rcases List.mem_append.mp he with h1 | h2
    · exact Nat.lt_succ_of_lt (hwf.2 e h1)
    · rw [List.mem_singleton] at h2
      subst h2
      exact Nat.lt_succ_self _

theorem wf_buildResponse (w : World) (now : Nat) (agent : AgentR) (hwf : EventsWF w) :
    EventsWF (buildResponse w now agent).1 := by
  rw [buildResponse_fst]
  cases (selectEvents w agent.id).getLast? with
  | none => exact hwf
  | some lastEv =>
    constructor
    · exact List.Pairwise.sublist (List.filter_sublist _) hwf.1
    · intro e he
      exact hwf.2 e (List.mem_of_mem_filter he)

theorem dead_addEvent (w : World) (now : Nat) (a t : String) (d : Value) (i : Nat)
    (hd : DeadEventId w i) : DeadEventId (addEvent w now a t d) i := by
  constructor
  · intro hmem
    rw [addEvent] at hmem
    dsimp only at hmem
    rw [List.map_append, List.mem_append] at hmem
    rcases hmem with h1 | h2
    · exact hd.1 h1
    · have h3 : i = w.nextEventId := by simpa using h2
      exact absurd h3 (Nat.ne_of_lt hd.2)
  · exact Nat.lt_succ_of_lt hd.2

theorem dead_buildResponse (w : World) (now : Nat) (agent : AgentR) (i : Nat)
    (hd : DeadEventId w i) : DeadEventId (buildResponse w now agent).1 i := by
  rw [buildResponse_fst]
  cases (selectEvents w agent.id).getLast? with
  | none => exact hd
  | some lastEv =>
    constructor
    · intro hmem
      rw [List.mem_map] at hmem
      obtain ⟨f, hf, hfi⟩ := hmem
      exact hd.1 (List.mem_map.mpr ⟨f, List.mem_of_mem_filter hf, hfi⟩)
    · exact hd.2

theorem dead_not_returned (i : Nat) :
    ∀ (ops : List BusOp) (w : World), DeadEventId w i →
      ∀ L ∈ returnedIds ops w, i ∉ L := by
  intro ops
  induction ops with
  | nil => intro w _ L hL; cases hL
  | cons op rest ih =>
    intro w hd L hL
    cases op with
    | emit a t d n =>
      rw [returnedIds] at hL
      exact ih _ (dead_addEvent w n a t d i hd) L hL
    | request ag n =>
      rw [returnedIds] at hL
      rcases List.mem_cons.mp hL with rfl | hL2
      · intro hiL
        rw [List.mem_map] at hiL
        obtain ⟨f, hf, hfi⟩ := hiL
        exact hd.1 (List.mem_map.mpr ⟨f, (selectEvents_mem w ag.id f hf).1, hfi⟩)
      · exact ih _ (dead_buildResponse w n ag i hd) L hL2

theorem returned_dead_after (w : World) (now : Nat) (agent : AgentR) (hwf : EventsWF w)
    (i : Nat) (hi : i ∈ (selectEvents w agent.id).map fun x => x.id) :
    DeadEventId (buildResponse w now agent).1 i := by
  obtain ⟨e2, he2sel, he2i⟩ := List.mem_map.mp hi
  have he2ev := (selectEvents_mem w agent.id e2 he2sel).1
  constructor
  · intro hmem
    rw [List.mem_map] at hmem
    obtain ⟨f, hf, hfi⟩ := hmem
    have hfev : f ∈ w.events := by
      rw [buildResponse_fst] at hf
      cases hsel : (selectEvents w agent.id).getLast? with
      | none => rw [hsel] at hf; exact hf
      | some lastEv => rw [hsel] at hf; exact List.mem_of_mem_filter hf
    have hnot := (buildResponse_events_iff w now agent hwf f hfev).mp hf
    apply hnot
    rw [hfi, ← he2i]
    exact List.mem_map.mpr ⟨e2, he2sel, rfl⟩
  · have hnx : (buildResponse w now agent).1.nextEventId = w.nextEventId := by
      rw [buildResponse_fst]
      cases (selectEvents w agent.id).getLast? <;> rfl
    rw [hnx, ← he2i]
    exact hwf.2 e2 he2ev

theorem returned_pairwise :
    ∀ (ops : List BusOp) (w : World), EventsWF w →
      (returnedIds ops w).Pairwise fun l1 l2 => ∀ i ∈ l1, i ∉ l2 := by
  intro ops
  induction ops with
  | nil => intro w _; exact List.Pairwise.nil
  | cons op rest ih =>
    intro w hwf
    cases op with
    | emit a t d n =>
      rw [returnedIds]
      exact ih _ (wf_addEvent w n a t d hwf)
    | request ag n =>
      rw [returnedIds, List.pairwise_cons]
      constructor
      · intro L hL i hiL
        exact dead_not_returned i rest _ (returned_dead_after w n ag hwf i hiL) L hL
      · exact ih _ (wf_buildResponse w n ag hwf)

/-- C8: a response envelope carries at most `MAX_EVENTS_PER_RESPONSE = 200`
of the agent's pending events (1), in ascending ordinal order (2), chosen
from the lowest ordinals — on a well-formed store every matching event
left out of the envelope has a strictly larger ordinal than every event in
it (3); building the envelope deletes exactly the rows it returns — a
stored row survives `buildResponse` iff its ordinal is not among the
returned ones (4); hence across any run of insertions and requests the
returned ordinal lists are pairwise disjoint: each event row is returned
in at most one envelope (5). -/
theorem C8_event_delivery :
    (∀ (w : World) (agentId : String),
      (selectEvents w agentId).length ≤ MAX_EVENTS_PER_RESPONSE) ∧
    (∀ (w : World) (agentId : String),
      List.Sorted (fun a b => a.id ≤ b.id) (selectEvents w agentId)) ∧
    (∀ (w : World) (agentId : String) (e e2 : EventR), EventsWF w →
      e ∈ w.events → e.agent_id = agentId →
      e.id ∈ (selectEvents w agentId).map (fun x => x.id) →
      e2 ∈ w.events → e2.agent_id = agentId →
      e2.id ∉ (selectEvents w agentId).map (fun x => x.id) →
      e.id < e2.id) ∧
    (∀ (w : World) (now : Nat) (agent : AgentR), EventsWF w → ∀ e ∈ w.events,
      (e ∈ (buildResponse w now agent).1.events ↔
        e.id ∉ (selectEvents w agent.id).map fun x => x.id)) ∧
    (∀ (ops : List BusOp) (w : World), EventsWF w →
      (returnedIds ops w).Pairwise fun l1 l2 => ∀ i ∈ l1, i ∉ l2) := by
  refine ⟨selectEvents_length_le, selectEvents_sorted, ?_, ?_, returned_pairwise⟩
  · intro w agentId e e2 hwf he ha hi he2 ha2 hn2
    obtain ⟨e1, he1sel, he1i⟩ := List.mem_map.mp hi
    have he1 := selectEvents_mem w agentId e1 he1sel
    have heq : e1 = e := wf_id_unique w.events hwf.1 e1 he1.1 e he he1i
    subst heq
    have hn2sel : e2 ∉ selectEvents w agentId := fun hsel =>
      hn2 (List.mem_map.mpr ⟨e2, hsel, rfl⟩)
    exact selectEvents_lowest w agentId hwf e1 he1sel e2 he2 ha2 hn2sel
  · intro w now agent hwf e he
    exact buildResponse_events_iff w now agent hwf e he

set_option maxRecDepth 40000 in
/-- Witness for C8 at concrete inputs: on a 201-event store the event with
ordinal 1 is in the envelope, ordinal 201 is not, and `1 < 201`; on `fxC8`
the first event survives `buildResponse` iff its ordinal is unreturned;
and the run `request, emit, request` yields pairwise-disjoint envelopes. -/
theorem C8_event_delivery_witness :
    ((1 : Nat) < fxC8BigLast.id) ∧
    ((⟨1, "a1", "system", .null, 0⟩ : EventR) ∈ (buildResponse fxC8 10 fxC8Agent).1.events ↔
      (1 : Nat) ∉ (selectEvents fxC8 "a1").map fun x => x.id) ∧
    (returnedIds fxC8Ops fxC8).Pairwise (fun l1 l2 => ∀ i ∈ l1, i ∉ l2) := by
  refine ⟨?_, ?_, ?_⟩
  · exact C8_event_delivery.2.2.1 fxC8Big "a1" ⟨1, "a1", "system", .null, 0⟩ fxC8BigLast
      (by decide)
      (List.mem_append_left _ (List.mem_map.mpr ⟨0, List.mem_range.mpr (by decide), rfl⟩))
      rfl (by decide)
      (List.mem_append_right _ (List.mem_singleton.mpr rfl))
      rfl (by decide)
  · exact C8_event_delivery.2.2.2.1 fxC8 10 fxC8Agent (by decide)
      (⟨1, "a1", "system", .null, 0⟩ : EventR) (List.Mem.head _)
  · exact C8_event_delivery.2.2.2.2 fxC8Ops fxC8 (by decide)
